import Mathlib

/-!
Shallow embedding of the conversation-manager core of the prompt-tester
repository (mcp_prompt_tester): the multi-turn conversation tool
(tools/test_multiturn_conversation.py), the comparison runner
(tools/test_comparison.py), the provider registry (providers/__init__.py),
the credential lookup (env.py) and the OpenAI cost calculator
(providers/openai.py).

Modelling conventions:
* Python dict values appearing in argument maps and JSON payloads are
  modelled by `JVal` (null / bool / number / string); numbers are modelled
  as rationals.  Argument maps and JSON objects are association lists
  `JDict`; `pyGet d k` is Python's `d.get(k)` (None when absent) and
  `pyGetD d k v` is `d.get(k, v)`.
* Python truthiness (`if not x`) on such values is `jTruthy`.
* The SQLite database is a `Store` (committed rows); a connection is a
  `DBConn` holding the committed store plus the current view including
  uncommitted writes.  `commit` publishes the current view, `rollback`
  discards it.  Closing a connection without commit also discards it,
  which the request wrapper reflects by returning only the committed
  store.  TEXT columns holding json.dumps output are modelled by the
  structured value itself, since json.dumps/json.loads round-trips.
* Calls to the external provider adapters are modelled by an oracle
  `AdapterOutcome` (the outcome of the try-block around construction and
  generation: a result dict, a ProviderError, or any other exception);
  the embedding additionally records the argument record the manager
  passes to `generate` / `generate_with_history` so theorems can speak
  about what reaches the adapter.
* The environment is an oracle `String → Option String` mapping variable
  names to values, read exactly as env.py's get_api_key does.
-/

namespace PromptTester

/-- JSON-like scalar values carried in tool argument maps and payloads.
`null` stands for Python `None` (and for an absent key where Python's
`dict.get` would return `None`). -/
inductive JVal where
  | null
  | bool (b : Bool)
  | num (q : ℚ)
  | str (s : String)
deriving DecidableEq, Repr

/-- A Python dict with string keys and JSON-like values, as an association
list in insertion order. -/
abbrev JDict := List (String × JVal)

/-- First binding of key `k` in dict `d`, if any. -/
def jfind (d : JDict) (k : String) : Option JVal :=
  (d.find? (fun p => p.1 == k)).map (·.2)

/-- Python `d.get(k)`: the bound value, or None when the key is absent. -/
def pyGet (d : JDict) (k : String) : JVal :=
  (jfind d k).getD .null

/-- Python `d.get(k, v)`: the bound value, or the default when absent. -/
def pyGetD (d : JDict) (k : String) (v : JVal) : JVal :=
  (jfind d k).getD v

/-- Python `k in d`. -/
def hasKey (d : JDict) (k : String) : Bool :=
  (jfind d k).isSome

/-- Python truthiness of a `JVal` (`if not x` tests the negation). -/
def jTruthy : JVal → Bool
  | .null => false
  | .bool b => b
  | .num q => decide (q ≠ 0)
  | .str s => decide (s ≠ "")

/-- Rendering of a value inside an f-string error message (cosmetic;
claims only inspect substrings such as "not found"). -/
def jvalText : JVal → String
  | .null => "None"
  | .bool b => if b then "True" else "False"
  | .num q => toString q
  | .str s => s

/-- A single-quote character, used by the source's f-string messages. -/
def squote : String := String.singleton (Char.ofNat 39)

/-- `s` contains `pat` as a substring. -/
def containsSub (s pat : String) : Prop :=
  ∃ pre post, s = pre ++ pat ++ post

/-! ## Provider registry and credential lookup -/

/-- providers/__init__.py: the registry's keys.  The adapter classes
behind the names are external collaborators, modelled by oracles. -/
def PROVIDERS : List String := ["openai", "anthropic"]

/-- Python's `str.upper()` (character-wise; provider names are ASCII). -/
def pyUpper (s : String) : String := ⟨s.data.map Char.toUpper⟩

/-- env.py `get_api_key(provider, raise_error=False)`: reads the
environment variable `PROVIDER_API_KEY` (provider upper-cased). -/
def get_api_key (env : String → Option String) (provider : String) :
    Option String :=
  env (pyUpper provider ++ "_API_KEY")

/-- The manager's `if not api_key:` test: the key is usable when present
and non-empty (Python truthiness on the optional string). -/
def apiKeyOk (env : String → Option String) (provider : String) : Bool :=
  match get_api_key env provider with
  | none => false
  | some k => decide (k ≠ "")

/-- A provider argument value passes `provider_name not in PROVIDERS`
only when it is a string naming a registered provider. -/
def providerSupported : JVal → Bool
  | .str s => PROVIDERS.contains s
  | _ => false

/-! ## OpenAI cost calculator (providers/openai.py) -/

/-- One entry of a provider's default-model catalog: name and per-million
token rates.  Python stores floats; rates here are rationals. -/
structure ModelInfo where
  name : String
  input_cost : ℚ
  output_cost : ℚ
  description : String
deriving DecidableEq, Repr

/-- `OpenAIProvider.get_default_models` (lines 234-256): catalog keyed by
tier, values carrying the `name` used for pricing lookup. -/
def openaiDefaultModels : List (String × ModelInfo) :=
  [ ("fast", { name := "gpt-4o-mini", input_cost := 15/100,
               output_cost := 60/100,
               description := "Fast and cost-effective model for most use cases" }),
    ("smart", { name := "o1-mini", input_cost := 11/10,
                output_cost := 44/10,
                description := "Advanced reasoning capabilities with superior performance" }),
    ("vision", { name := "gpt-4o", input_cost := 25/10,
                 output_cost := 100/10,
                 description := "Multimodal model that can process images and text" }) ]

/-- The lookup loop of `OpenAIProvider.generate` (lines 81-88): iterate
the catalog values and keep the first whose `name` equals the requested
model — an exact string match, not a lookup by tier key. -/
def findModelInfo (model : String) : Option ModelInfo :=
  ((openaiDefaultModels.find? (fun p => p.2.name == model))).map (·.2)

/-- The cost payload attached when pricing data exists (lines 91-105). -/
structure CostBreakdown where
  input_cost : ℚ
  output_cost : ℚ
  total_cost : ℚ
  currency : String
  input_rate : ℚ
  output_rate : ℚ
deriving DecidableEq, Repr

/-- Lines 92-105 of providers/openai.py: the arithmetic on token counts
and the model's rates.  Pure in (counts, pricing record). -/
def computeCosts (info : ModelInfo) (prompt_tokens completion_tokens : ℕ) :
    CostBreakdown :=
  let input_cost : ℚ := ((prompt_tokens : ℚ) / 1000000) * info.input_cost
  let output_cost : ℚ := ((completion_tokens : ℚ) / 1000000) * info.output_cost
  { input_cost := input_cost
    output_cost := output_cost
    total_cost := input_cost + output_cost
    currency := "USD"
    input_rate := info.input_cost
    output_rate := info.output_cost }

/-- The whole cost block of `OpenAIProvider.generate` (lines 80-105): no
breakdown at all when the model is absent from the catalog. -/
def openaiCosts (model : String) (prompt_tokens completion_tokens : ℕ) :
    Option CostBreakdown :=
  (findModelInfo model).map (fun info => computeCosts info prompt_tokens completion_tokens)

/-! ## Conversation store (the SQLite schema of
tools/test_multiturn_conversation.py, lines 38-72) -/

/-- One row of the `conversations` table.  `provider`, `model` and
`system_prompt` hold the argument values as given (SQLite TEXT affinity
accepts them); `hyperparameters`, `usage` and `costs` are stored as
json.dumps text, modelled structurally. -/
structure ConvRecord where
  provider : JVal
  model : JVal
  system_prompt : JVal
  hyperparameters : JDict
  usage : JDict
  costs : JDict
  response_time : ℚ
deriving DecidableEq, Repr

/-- One row of the `conversation_history` table.  The AUTOINCREMENT id
used by `ORDER BY id` is the position in the list below. -/
structure HistRow where
  conversation_id : String
  role : String
  content : JVal
deriving DecidableEq, Repr

/-- Database contents: the two tables, histories in insertion order. -/
structure Store where
  conversations : List (String × ConvRecord)
  history : List HistRow
deriving DecidableEq, Repr

/-- `SELECT * FROM conversations WHERE id = ?` for a string id. -/
def lookupConv (s : Store) (id : String) : Option ConvRecord :=
  ((s.conversations.find? (fun p => p.1 == id))).map (·.2)

/-- The same SELECT when the bound parameter is an arbitrary argument
value: a TEXT primary key only ever equals a string. -/
def lookupConvJ (s : Store) : JVal → Option ConvRecord
  | .str id => lookupConv s id
  | _ => none

/-- `SELECT role, content FROM conversation_history WHERE
conversation_id = ? ORDER BY id`. -/
def convHistory (s : Store) (id : String) : List HistRow :=
  s.history.filter (fun r => r.conversation_id == id)

/-- `INSERT INTO conversations ...`. -/
def insertConv (s : Store) (id : String) (r : ConvRecord) : Store :=
  { s with conversations := s.conversations ++ [(id, r)] }

/-- `INSERT INTO conversation_history (conversation_id, role, content)`. -/
def insertHist (s : Store) (id role : String) (content : JVal) : Store :=
  { s with history := s.history ++ [{ conversation_id := id, role := role,
                                      content := content }] }

/-- `UPDATE conversations SET usage = ?, costs = ?, response_time = ?
WHERE id = ?`. -/
def updateUsage (s : Store) (id : String) (usage costs : JDict)
    (response_time : ℚ) : Store :=
  { s with conversations := s.conversations.map (fun p =>
      if p.1 == id then
        (p.1, { p.2 with usage := usage, costs := costs,
                         response_time := response_time })
      else p) }

/-- `DELETE FROM conversations WHERE id = ?` with the schema's
`ON DELETE CASCADE` removing the conversation's history rows. -/
def deleteConv (s : Store) (id : String) : Store :=
  { conversations := s.conversations.filter (fun p => !(p.1 == id)),
    history := s.history.filter (fun r => !(r.conversation_id == id)) }

/-- A SQLite connection: the committed database plus the connection's
current view including writes of the open implicit transaction. -/
structure DBConn where
  committed : Store
  current : Store
deriving DecidableEq, Repr

/-- `conn.commit()`. -/
def commitConn (c : DBConn) : DBConn := ⟨c.current, c.current⟩

/-- `conn.rollback()` — also what closing the connection with an open
transaction does to the uncommitted writes. -/
def rollbackConn (c : DBConn) : DBConn := ⟨c.committed, c.committed⟩

/-- Run a write on the connection's current (uncommitted) view. -/
def execWrite (c : DBConn) (f : Store → Store) : DBConn :=
  { c with current := f c.current }

/-! ## Adapter boundary -/

/-- One message dict `{"role": ..., "content": ...}`. -/
structure Msg where
  role : String
  content : JVal
deriving DecidableEq, Repr

/-- The fields of an adapter result dict that the manager reads:
`result["text"]`, `result["model"]`, `result.get("usage", {})`,
`result.get("costs", {})`, `result.get("response_time", 0)`; `extra`
collects the remaining keys (e.g. finish_reason), which only the
comparison runner's metadata echo touches. -/
structure GenResult where
  text : String
  model : String
  usage : JDict
  costs : JDict
  response_time : ℚ
  extra : JDict
deriving DecidableEq, Repr

/-- Oracle for the try-block around provider construction and the
generate call: success with a result dict, a raised ProviderError, or
any other exception. -/
inductive AdapterOutcome where
  | ok (r : GenResult)
  | providerErr (msg : String)
  | otherErr (msg : String)
deriving DecidableEq, Repr

/-- The argument record the manager passes to a single-turn `generate`
call. -/
structure GenCall where
  model : JVal
  system_prompt : JVal
  user_prompt : JVal
  temperature : JVal
  max_tokens : JVal
  top_p : JVal
  kwargs : JDict
deriving DecidableEq, Repr

/-- The argument record the manager passes to `generate_with_history`. -/
structure HistCall where
  model : JVal
  system_prompt : JVal
  message_history : List Msg
  kwargs : JDict
deriving DecidableEq, Repr

/-! ## Responses -/

/-- A per-conversation summary built by `_list_conversations`. -/
structure ConvSummary where
  provider : JVal
  model : JVal
  first_user_message : JVal
  latest_assistant_message : JVal
  message_count : ℕ
  system_prompt : String
deriving DecidableEq, Repr

/-- The JSON payloads `test_multiturn_conversation` serializes: an
`isError: true` message, or one of the mode-specific success shapes
(`turnOk` is the common start/continue payload). -/
inductive ConvResp where
  | err (msg : String)
  | turnOk (conversation_id : String) (response : String) (model : String)
      (usage costs : JDict) (response_time : ℚ)
  | getOk (conversation_id : String) (history : List Msg)
      (usage costs : JDict) (response_time : ℚ)
      (provider model system_prompt : JVal) (hyperparameters : JDict)
  | listOk (conversation_count : ℕ)
      (conversations : List (String × ConvSummary))
  | closeOk (message : String)
deriving DecidableEq, Repr

/-- Whether a response is the `isError: true` shape. -/
def ConvResp.isErr : ConvResp → Bool
  | .err _ => true
  | _ => false

/-- f-string `Conversation with ID '{conversation_id}' not found.` -/
def notFoundMsg (v : JVal) : String :=
  "Conversation with ID " ++ squote ++ jvalText v ++ squote ++ " not found."

/-! ## start (_start_conversation, lines 136-230) -/

/-- The keys `_start_conversation` pops before collecting kwargs
(line 145-147). -/
def START_EXCLUDED : List String :=
  ["mode", "provider", "model", "system_prompt", "user_prompt",
   "temperature", "max_tokens", "top_p", "conversation_id"]

/-- Line 145-147: pass-through extras. -/
def startKwargs (args : JDict) : JDict :=
  args.filter (fun p => !(START_EXCLUDED.contains p.1))

/-- Lines 164-169: the stored hyperparameters dict — the three sampling
keys (possibly None) followed by all extras, in insertion order. -/
def startHypers (args : JDict) : JDict :=
  [("temperature", pyGet args "temperature"),
   ("max_tokens", pyGet args "max_tokens"),
   ("top_p", pyGet args "top_p")] ++ startKwargs args

structure StartResult where
  conn : DBConn
  resp : ConvResp
  call : Option GenCall
deriving DecidableEq, Repr

def startConversation (conn : DBConn) (args : JDict)
    (env : String → Option String) (newId : String)
    (outcome : AdapterOutcome) : StartResult :=
  let provider_name := pyGet args "provider"
  let model := pyGet args "model"
  let system_prompt := pyGet args "system_prompt"
  let user_prompt := pyGetD args "user_prompt" (.str "")
  -- line 149: `any(arg is None for arg in [provider_name, model, system_prompt])`
  if provider_name = JVal.null ∨ model = JVal.null ∨ system_prompt = JVal.null then
    ⟨conn, .err "Missing required parameters (provider, model, system_prompt).", none⟩
  else
    match provider_name with
    | .str pname =>
      -- line 152: `provider_name not in PROVIDERS`
      if PROVIDERS.contains pname then
        -- line 155-157: `get_api_key(provider_name, raise_error=False)`
        if apiKeyOk env pname then
          let hyperparameters := startHypers args
          let call : GenCall :=
            { model := model, system_prompt := system_prompt,
              user_prompt := user_prompt,
              temperature := pyGet args "temperature",
              max_tokens := pyGet args "max_tokens",
              top_p := pyGet args "top_p",
              kwargs := startKwargs args }
          -- lines 171-230: try block around construction + generate;
          -- `call` records the arguments generate receives when reached
          match outcome with
          | .providerErr m =>
            ⟨rollbackConn conn, .err ("Provider error: " ++ m), some call⟩
          | .otherErr m =>
            ⟨rollbackConn conn,
             .err ("Unexpected error during generation: " ++ m), some call⟩
          | .ok r =>
            -- the INSERTs (191-206); a PRIMARY KEY or NOT NULL violation
            -- raises IntegrityError, caught at line 227 with rollback
            if (lookupConv conn.current newId).isSome then
              ⟨rollbackConn conn,
               .err "Unexpected error during generation: UNIQUE constraint failed: conversations.id",
               some call⟩
            else if user_prompt = JVal.null then
              ⟨rollbackConn conn,
               .err "Unexpected error during generation: NOT NULL constraint failed: conversation_history.content",
               some call⟩
            else
              let c1 := execWrite conn (fun s => insertConv s newId
                { provider := provider_name, model := model,
                  system_prompt := system_prompt,
                  hyperparameters := hyperparameters,
                  usage := r.usage, costs := r.costs,
                  response_time := r.response_time })
              let c2 := execWrite c1 (fun s => insertHist s newId "user" user_prompt)
              let c3 := execWrite c2 (fun s => insertHist s newId "assistant" (.str r.text))
              ⟨commitConn c3,
               .turnOk newId r.text r.model r.usage r.costs r.response_time,
               some call⟩
        else
          ⟨conn, .err ("API key for provider " ++ squote ++ pname ++ squote
                        ++ " is not available."), none⟩
      else
        ⟨conn, .err ("Provider " ++ squote ++ pname ++ squote
                      ++ " not supported."), none⟩
    | _ =>
      ⟨conn, .err ("Provider " ++ squote ++ jvalText provider_name ++ squote
                    ++ " not supported."), none⟩

/-! ## continue (_continue_conversation, lines 232-331) -/

/-- Line 282: the recognized sampling parameters. -/
def VALID_PARAMS : List String := ["temperature", "max_tokens", "top_p"]

/-- Lines 280-285: keep only the recognized keys whose stored value is
not None. -/
def validHypers (h : JDict) : JDict :=
  VALID_PARAMS.filterMap (fun k =>
    match jfind h k with
    | some v => if v = JVal.null then none else some (k, v)
    | none => none)

structure ContinueResult where
  conn : DBConn
  resp : ConvResp
  call : Option HistCall
deriving DecidableEq, Repr

def continueConversation (conn : DBConn) (args : JDict)
    (outcome : AdapterOutcome) : ContinueResult :=
  let conversation_id := pyGet args "conversation_id"
  let user_prompt := pyGetD args "user_prompt" (.str "")
  -- line 237: `if not conversation_id`
  if !(jTruthy conversation_id) then
    ⟨conn, .err ("Missing required parameter " ++ squote ++ "conversation_id"
                  ++ squote ++ "."), none⟩
  else
    match conversation_id with
    | .str cid =>
      match lookupConv conn.current cid with
      | none => ⟨conn, .err (notFoundMsg (.str cid)), none⟩
      | some rcd =>
        -- lines 250-253: a supplied system_prompt only triggers a printed
        -- warning; it is not read anywhere else
        let conversation_history := (convHistory conn.current cid).map
          (fun r => { role := r.role, content := r.content : Msg })
        if user_prompt = JVal.null then
          -- the pre-try INSERT (line 268) violates NOT NULL; the
          -- IntegrityError escapes to the dispatcher's catch-all
          -- (line 127-131) and the connection closes uncommitted
          ⟨rollbackConn conn,
           .err "Unexpected error: NOT NULL constraint failed: conversation_history.content",
           none⟩
        else
          let c1 := execWrite conn (fun s => insertHist s cid "user" user_prompt)
          let hist2 := conversation_history ++ [{ role := "user", content := user_prompt }]
          let call : HistCall :=
            { model := rcd.model, system_prompt := rcd.system_prompt,
              message_history := hist2,
              kwargs := validHypers rcd.hyperparameters }
          match outcome with
          | .providerErr m =>
            ⟨rollbackConn c1, .err ("Provider error: " ++ m), some call⟩
          | .otherErr m =>
            ⟨rollbackConn c1,
             .err ("Unexpected error during continuation: " ++ m), some call⟩
          | .ok r =>
            let c2 := execWrite c1 (fun s => insertHist s cid "assistant" (.str r.text))
            let c3 := execWrite c2 (fun s => updateUsage s cid r.usage r.costs r.response_time)
            ⟨commitConn c3,
             .turnOk cid r.text r.model r.usage r.costs r.response_time,
             some call⟩
    | _ => ⟨conn, .err (notFoundMsg conversation_id), none⟩

/-! ## get (_get_conversation, lines 333-375) -/

def getConversation (conn : DBConn) (args : JDict) : ConvResp :=
  let conversation_id := pyGet args "conversation_id"
  if !(jTruthy conversation_id) then
    .err ("Missing required parameter " ++ squote ++ "conversation_id"
           ++ squote ++ ".")
  else
    match conversation_id with
    | .str cid =>
      match lookupConv conn.current cid with
      | none => .err (notFoundMsg (.str cid))
      | some rcd =>
        .getOk cid
          ((convHistory conn.current cid).map
            (fun r => { role := r.role, content := r.content }))
          rcd.usage rcd.costs rcd.response_time
          rcd.provider rcd.model rcd.system_prompt rcd.hyperparameters
    | _ => .err (notFoundMsg conversation_id)

/-! ## list (_list_conversations, lines 377-433) -/

/-- Line 423: `system_prompt[:100] + "..." if len(system_prompt) > 100`. -/
def truncate100 (s : String) : String :=
  if s.length > 100 then s.take 100 ++ "..." else s

/-- One summary (lines 392-424).  `none` when the stored system_prompt is
not a string, in which case `len(...)` raises TypeError (message text
abstracted below). -/
def summarizeConv (s : Store) (id : String) (rcd : ConvRecord) :
    Option ConvSummary :=
  match rcd.system_prompt with
  | .str sp =>
    let rows := convHistory s id
    let first_user :=
      ((rows.find? (fun h => h.role == "user")).map (·.content)).getD (.str "")
    let last_assistant :=
      (((rows.filter (fun h => h.role == "assistant")).getLast?).map (·.content)).getD (.str "")
    some { provider := rcd.provider, model := rcd.model,
           first_user_message := first_user,
           latest_assistant_message := last_assistant,
           message_count := rows.length,
           system_prompt := truncate100 sp }
  | _ => none

def listConversations (conn : DBConn) : ConvResp :=
  match conn.current.conversations.mapM
      (fun p => (summarizeConv conn.current p.1 p.2).map (fun sm => (p.1, sm))) with
  | some summaries => .listOk summaries.length summaries
  | none => .err "Unexpected error: system_prompt has no len()"

/-! ## close (_close_conversation, lines 435-453) -/

def closeConversation (conn : DBConn) (args : JDict) : DBConn × ConvResp :=
  let conversation_id := pyGet args "conversation_id"
  if !(jTruthy conversation_id) then
    (conn, .err ("Missing required parameter " ++ squote ++ "conversation_id"
                  ++ squote ++ "."))
  else
    match conversation_id with
    | .str cid =>
      match lookupConv conn.current cid with
      | none => (conn, .err (notFoundMsg (.str cid)))
      | some _ =>
        (commitConn (execWrite conn (fun s => deleteConv s cid)),
         .closeOk ("Conversation " ++ squote ++ cid ++ squote ++ " closed."))
    | _ => (conn, .err (notFoundMsg conversation_id))

/-! ## Dispatcher (test_multiturn_conversation, lines 74-134) -/

/-- f-string `Missing required parameter '{p}' for '{m}' mode.` -/
def missingParamMsg (p m : String) : String :=
  "Missing required parameter " ++ squote ++ p ++ squote ++ " for "
    ++ squote ++ m ++ squote ++ " mode."

/-- Line 124's message. -/
def invalidModeMsg : String :=
  "Invalid mode. Must be " ++ squote ++ "start" ++ squote ++ ", "
    ++ squote ++ "continue" ++ squote ++ ", " ++ squote ++ "get" ++ squote
    ++ ", " ++ squote ++ "list" ++ squote ++ ", or " ++ squote ++ "close"
    ++ squote ++ "."

/-- Outcome of one whole request: the committed store after the finally
block closes the connection (discarding any uncommitted writes), the
serialized response, and the adapter-call traces. -/
structure OpResult where
  store : Store
  resp : ConvResp
  genCall : Option GenCall
  histCall : Option HistCall
deriving DecidableEq, Repr

/-- One request against `test_multiturn_conversation`: a fresh
thread-local connection over the committed store, mode dispatch with the
per-mode required-parameter checks, then the mode handler. -/
def multiturnRequest (store : Store) (args : JDict)
    (env : String → Option String) (newId : String)
    (outcome : AdapterOutcome) : OpResult :=
  let conn : DBConn := ⟨store, store⟩
  let mode := pyGet args "mode"
  if !(jTruthy mode) then
    ⟨store, .err ("Missing required parameter " ++ squote ++ "mode"
                   ++ squote ++ "."), none, none⟩
  else if mode = JVal.str "start" then
    if !(jTruthy (pyGet args "provider")) then
      ⟨store, .err (missingParamMsg "provider" "start"), none, none⟩
    else if !(jTruthy (pyGet args "model")) then
      ⟨store, .err (missingParamMsg "model" "start"), none, none⟩
    else if !(jTruthy (pyGet args "system_prompt")) then
      ⟨store, .err (missingParamMsg "system_prompt" "start"), none, none⟩
    else
      let r := startConversation conn args env newId outcome
      ⟨r.conn.committed, r.resp, r.call, none⟩
  else if mode = JVal.str "continue" then
    if !(jTruthy (pyGet args "conversation_id")) then
      ⟨store, .err (missingParamMsg "conversation_id" "continue"), none, none⟩
    else
      let r := continueConversation conn args outcome
      ⟨r.conn.committed, r.resp, none, r.call⟩
  else if mode = JVal.str "get" then
    if !(jTruthy (pyGet args "conversation_id")) then
      ⟨store, .err (missingParamMsg "conversation_id" "get"), none, none⟩
    else
      ⟨store, getConversation conn args, none, none⟩
  else if mode = JVal.str "list" then
    ⟨store, listConversations conn, none, none⟩
  else if mode = JVal.str "close" then
    if !(jTruthy (pyGet args "conversation_id")) then
      ⟨store, .err (missingParamMsg "conversation_id" "close"), none, none⟩
    else
      let r := closeConversation conn args
      ⟨r.1.committed, r.2, none, none⟩
  else
    ⟨store, .err invalidModeMsg, none, none⟩

/-! ## Comparison runner (tools/test_comparison.py) -/

/-- Lines 44-46: keys excluded from a slot's pass-through kwargs. -/
def COMP_EXCLUDED : List String :=
  ["provider", "model", "system_prompt", "user_prompt",
   "temperature", "max_tokens", "top_p"]

/-- A single slot's outcome dict: either `{isError: true, error}` or the
success payload (lines 89-101). -/
inductive SlotResp where
  | err (msg : String)
  | ok (response : String) (model : String) (provider : JVal)
      (usage costs : JDict) (response_time : ℚ) (metadata : JDict)
deriving DecidableEq, Repr

/-- Line 60's message. -/
def apiKeyCompMsg (pname : String) : String :=
  "API key for provider " ++ squote ++ pname ++ squote
    ++ " is not available. Please set " ++ pyUpper pname
    ++ "_API_KEY in your environment or .env file."

/-- `run_comparison` (lines 33-106): fully isolated per-slot validation
and execution.  Besides the outcome dict it records the `generate` call
when one is made: the warning-only unknown-model check (lines 67-77) has
no effect on control flow, so the call record does not depend on the
default-model catalog. -/
def runComparison (env : String → Option String) (config : JDict)
    (outcome : AdapterOutcome) : SlotResp × Option GenCall :=
  let provider_name := pyGet config "provider"
  let model := pyGet config "model"
  let system_prompt := pyGet config "system_prompt"
  let user_prompt := pyGetD config "user_prompt" (.str "")
  let kwargs := config.filter (fun p => !(COMP_EXCLUDED.contains p.1))
  -- line 49: `is None` checks (empty-string user_prompt is allowed)
  if provider_name = JVal.null ∨ model = JVal.null ∨
      system_prompt = JVal.null ∨ user_prompt = JVal.null then
    (.err "Missing required parameters in a comparison configuration.", none)
  else
    match provider_name with
    | .str pname =>
      if PROVIDERS.contains pname then
        if apiKeyOk env pname then
          let call : GenCall :=
            { model := model, system_prompt := system_prompt,
              user_prompt := user_prompt,
              temperature := pyGet config "temperature",
              max_tokens := pyGet config "max_tokens",
              top_p := pyGet config "top_p",
              kwargs := kwargs }
          match outcome with
          | .ok r =>
            (.ok r.text r.model provider_name r.usage r.costs
               r.response_time r.extra, some call)
          | .providerErr m => (.err ("Provider error: " ++ m), some call)
          | .otherErr m => (.err ("Unexpected error: " ++ m), some call)
        else (.err (apiKeyCompMsg pname), none)
      else
        (.err ("Provider " ++ squote ++ pname ++ squote
                ++ " not supported."), none)
    | _ =>
      (.err ("Provider " ++ squote ++ jvalText provider_name ++ squote
              ++ " not supported."), none)

/-- The aggregate response of `test_comparison`: a top-level error, or
`{isError: false, results: [...]}`. -/
inductive CompResp where
  | topErr (msg : String)
  | ok (results : List SlotResp)
deriving DecidableEq, Repr

/-- `test_comparison` (lines 17-118) for a list-shaped `comparisons`
argument, one adapter-outcome oracle per slot.  asyncio.gather preserves
input order, so the aggregation is a zipWith. -/
def testComparison (env : String → Option String)
    (comparisons : List JDict) (outcomes : List AdapterOutcome) : CompResp :=
  -- line 20: `if not comparisons or not isinstance(comparisons, list)`
  if comparisons.isEmpty then
    .topErr ("The " ++ squote ++ "comparisons" ++ squote
              ++ " argument must be a non-empty list.")
  -- line 26: `if not 1 <= len(comparisons) <= 4`
  else if !(decide (1 ≤ comparisons.length ∧ comparisons.length ≤ 4)) then
    .topErr "You can compare between 1 and 4 configurations."
  else
    .ok (List.zipWith (fun c o => (runComparison env c o).1) comparisons outcomes)

/-! ## Derived notions used by the verified properties -/

/-- The role column of a conversation's history, in insertion order. -/
def rolesOf (s : Store) (id : String) : List String :=
  (convHistory s id).map (·.role)

/-- The strict user/assistant alternation pattern of a healthy history
with `n` completed exchanges. -/
def altPattern : ℕ → List String
  | 0 => []
  | n + 1 => "user" :: "assistant" :: altPattern n

/-- Credential usability for an arbitrary provider argument value. -/
def apiKeyOkJ (env : String → Option String) : JVal → Bool
  | .str s => apiKeyOk env s
  | _ => false

/-- Canonical argument map of one continuation turn. -/
def contArgs (cid up : String) : JDict :=
  [("mode", .str "continue"), ("conversation_id", .str cid),
   ("user_prompt", .str up)]

/-- A sequence of requests whose mode is forced to "continue" (the first
binding of a key wins in `jfind`), each on a fresh connection over
the previous committed store, as the tool's per-request connection
lifecycle dictates. -/
def runContinues (store : Store) (env : String → Option String)
    (newId : String) (steps : List (JDict × AdapterOutcome)) : Store :=
  steps.foldl
    (fun s p =>
      (multiturnRequest s (("mode", JVal.str "continue") :: p.1) env newId p.2).store)
    store

/-- A sequence of successful continuation turns on conversation `cid`,
step `(up, r)` sending user prompt `up` and the adapter returning `r`. -/
def runContinueSeq (store : Store) (cid : String)
    (env : String → Option String) (newId : String)
    (steps : List (String × GenResult)) : Store :=
  steps.foldl
    (fun s p => (multiturnRequest s (contArgs cid p.1) env newId (.ok p.2)).store)
    store

/-! ## Basic lemmas about the embedding's data operations -/

theorem jfind_cons_ne (k k' : String) (v : JVal) (d : JDict)
    (h : (k' == k) = false) : jfind ((k', v) :: d) k = jfind d k := by
  simp [jfind, List.find?, h]

theorem pyGet_cons_ne (k k' : String) (v : JVal) (d : JDict)
    (h : (k' == k) = false) : pyGet ((k', v) :: d) k = pyGet d k := by
  simp [pyGet, jfind_cons_ne _ _ _ _ h]

theorem pyGetD_cons_ne (k k' : String) (v d₀ : JVal) (d : JDict)
    (h : (k' == k) = false) : pyGetD ((k', v) :: d) k d₀ = pyGetD d k d₀ := by
  simp [pyGetD, jfind_cons_ne _ _ _ _ h]

theorem pyGet_cons_self (k : String) (v : JVal) (d : JDict) :
    pyGet ((k, v) :: d) k = v := by
  simp [pyGet, jfind, List.find?]

theorem jTruthy_ne_null (v : JVal) (h : jTruthy v = true) : v ≠ JVal.null := by
  intro hv; subst hv; simp [jTruthy] at h

theorem lookupConv_insertHist (s : Store) (i ro : String) (co : JVal)
    (id : String) : lookupConv (insertHist s i ro co) id = lookupConv s id := rfl

theorem find?_val_map_update (l : List (String × ConvRecord)) (i id : String)
    (f : ConvRecord → ConvRecord) :
    ((l.map (fun p => if (p.1 == i) = true then (p.1, f p.2) else p)).find?
        (fun p => p.1 == id)).map (·.2) =
      ((l.find? (fun p => p.1 == id)).map (·.2)).map
        (fun r => if (id == i) = true then f r else r) := by
  induction l with
  | nil => rfl
  | cons hd tl ih =>
    by_cases hkey : hd.1 = id
    · subst hkey
      by_cases hi : hd.1 = i
      · simp [List.find?_cons, hi]
      · simp [List.find?_cons, hi]
    · by_cases hi : hd.1 = i
      · subst hi
        simpa [List.find?_cons, hkey] using ih
      · simpa [List.find?_cons, hi, hkey] using ih

theorem lookupConv_updateUsage (s : Store) (i : String) (u c : JDict)
    (rt : ℚ) (id : String) :
    lookupConv (updateUsage s i u c rt) id =
      (lookupConv s id).map (fun r =>
        if (id == i) = true then
          { r with usage := u, costs := c, response_time := rt }
        else r) := by
  unfold lookupConv updateUsage
  exact find?_val_map_update s.conversations i id
    (fun r => { r with usage := u, costs := c, response_time := rt })

theorem convHistory_insertHist (s : Store) (i ro : String) (co : JVal)
    (id : String) :
    convHistory (insertHist s i ro co) id =
      convHistory s id ++
        (if (i == id) = true then
          [{ conversation_id := i, role := ro, content := co }] else []) := by
  unfold convHistory insertHist
  simp [List.filter_append]
  split <;> simp_all

theorem convHistory_updateUsage (s : Store) (i : String) (u c : JDict)
    (rt : ℚ) (id : String) :
    convHistory (updateUsage s i u c rt) id = convHistory s id := rfl

theorem lookupConv_deleteConv_self (s : Store) (id : String) :
    lookupConv (deleteConv s id) id = none := by
  unfold lookupConv deleteConv
  simp only [Option.map_eq_none', List.find?_eq_none]
  intro p hp
  have := List.of_mem_filter hp
  simpa using this

theorem convHistory_deleteConv_self (s : Store) (id : String) :
    convHistory (deleteConv s id) id = [] := by
  unfold convHistory deleteConv
  simp only [List.filter_eq_nil_iff]
  intro r hr
  have := List.of_mem_filter hr
  simpa using this

/-! ## Reduction lemmas for the dispatcher -/

theorem multiturnRequest_continue_eq (store : Store) (args : JDict)
    (env : String → Option String) (newId : String) (outcome : AdapterOutcome)
    (h : pyGet args "mode" = JVal.str "continue") :
    multiturnRequest store args env newId outcome =
      if !(jTruthy (pyGet args "conversation_id")) then
        ⟨store, .err (missingParamMsg "conversation_id" "continue"), none, none⟩
      else
        ⟨(continueConversation ⟨store, store⟩ args outcome).conn.committed,
         (continueConversation ⟨store, store⟩ args outcome).resp, none,
         (continueConversation ⟨store, store⟩ args outcome).call⟩ := by
  unfold multiturnRequest
  rw [h]
  simp [jTruthy]

theorem multiturnRequest_start_eq (store : Store) (args : JDict)
    (env : String → Option String) (newId : String) (outcome : AdapterOutcome)
    (h : pyGet args "mode" = JVal.str "start") :
    multiturnRequest store args env newId outcome =
      if !(jTruthy (pyGet args "provider")) then
        ⟨store, .err (missingParamMsg "provider" "start"), none, none⟩
      else if !(jTruthy (pyGet args "model")) then
        ⟨store, .err (missingParamMsg "model" "start"), none, none⟩
      else if !(jTruthy (pyGet args "system_prompt")) then
        ⟨store, .err (missingParamMsg "system_prompt" "start"), none, none⟩
      else
        ⟨(startConversation ⟨store, store⟩ args env newId outcome).conn.committed,
         (startConversation ⟨store, store⟩ args env newId outcome).resp,
         (startConversation ⟨store, store⟩ args env newId outcome).call, none⟩ := by
  unfold multiturnRequest
  rw [h]
  simp [jTruthy]

theorem multiturnRequest_get_eq (store : Store) (args : JDict)
    (env : String → Option String) (newId : String) (outcome : AdapterOutcome)
    (h : pyGet args "mode" = JVal.str "get") :
    multiturnRequest store args env newId outcome =
      if !(jTruthy (pyGet args "conversation_id")) then
        ⟨store, .err (missingParamMsg "conversation_id" "get"), none, none⟩
      else
        ⟨store, getConversation ⟨store, store⟩ args, none, none⟩ := by
  unfold multiturnRequest
  rw [h]
  simp [jTruthy]

theorem multiturnRequest_close_eq (store : Store) (args : JDict)
    (env : String → Option String) (newId : String) (outcome : AdapterOutcome)
    (h : pyGet args "mode" = JVal.str "close") :
    multiturnRequest store args env newId outcome =
      if !(jTruthy (pyGet args "conversation_id")) then
        ⟨store, .err (missingParamMsg "conversation_id" "close"), none, none⟩
      else
        ⟨(closeConversation ⟨store, store⟩ args).1.committed,
         (closeConversation ⟨store, store⟩ args).2, none, none⟩ := by
  unfold multiturnRequest
  rw [h]
  simp [jTruthy]

/-! ## Branch lemmas for continue -/

/-- On any failing adapter outcome (ProviderError or any other
exception), a continue call leaves the committed store untouched and
reports an error — regardless of which internal branch was taken. -/
theorem continueConversation_fail (conn : DBConn) (args : JDict)
    (outcome : AdapterOutcome) (m : String)
    (hfail : outcome = .providerErr m ∨ outcome = .otherErr m) :
    (continueConversation conn args outcome).conn.committed = conn.committed ∧
      (continueConversation conn args outcome).resp.isErr = true := by
  rcases hfail with h | h <;> subst h <;>
    · simp only [continueConversation]
      split
      · exact ⟨rfl, rfl⟩
      · split
        · split
          · exact ⟨rfl, rfl⟩
          · split
            · exact ⟨rfl, rfl⟩
            · exact ⟨rfl, rfl⟩
        · exact ⟨rfl, rfl⟩

/-- Full equation of a successful continuation: the conversation found,
the user prompt appended, the adapter invoked on the extended history
with only the recognized stored sampling parameters, the reply appended,
usage overwritten, and everything committed. -/
theorem continueConversation_ok_eq (conn : DBConn) (args : JDict)
    (r : GenResult) (cid : String) (rcd : ConvRecord)
    (hcid : pyGet args "conversation_id" = JVal.str cid) (hne : cid ≠ "")
    (hrec : lookupConv conn.current cid = some rcd)
    (hup : pyGetD args "user_prompt" (JVal.str "") ≠ JVal.null) :
    continueConversation conn args (.ok r) =
      ⟨commitConn (execWrite (execWrite (execWrite conn
          (fun s => insertHist s cid "user" (pyGetD args "user_prompt" (JVal.str ""))))
          (fun s => insertHist s cid "assistant" (JVal.str r.text)))
          (fun s => updateUsage s cid r.usage r.costs r.response_time)),
       .turnOk cid r.text r.model r.usage r.costs r.response_time,
       some { model := rcd.model, system_prompt := rcd.system_prompt,
              message_history := (convHistory conn.current cid).map
                  (fun h => { role := h.role, content := h.content }) ++
                [{ role := "user", content := pyGetD args "user_prompt" (JVal.str "") }],
              kwargs := validHypers rcd.hyperparameters }⟩ := by
  have ht : ¬ ((!(jTruthy (JVal.str cid))) = true) := by simp [jTruthy, hne]
  simp only [continueConversation, hcid, hrec, if_neg hup, if_neg ht]

/-- A continue call on an id with no record fails with the not-found
message and leaves the connection untouched. -/
theorem continueConversation_notfound (conn : DBConn) (args : JDict)
    (outcome : AdapterOutcome)
    (ht : jTruthy (pyGet args "conversation_id") = true)
    (hnf : lookupConvJ conn.current (pyGet args "conversation_id") = none) :
    continueConversation conn args outcome =
      ⟨conn, .err (notFoundMsg (pyGet args "conversation_id")), none⟩ := by
  have ht' : (!(jTruthy (pyGet args "conversation_id"))) = false := by simp [ht]
  simp only [continueConversation, ht', Bool.false_eq_true, if_false]
  cases hv : pyGet args "conversation_id" <;> simp_all [lookupConvJ, jTruthy]

/-- One continue request (whatever its arguments and outcome) never
changes the provider, model, system prompt or stored hyperparameters of
any conversation record. -/
theorem continueRequest_identity (s : Store) (args : JDict)
    (env : String → Option String) (newId : String)
    (outcome : AdapterOutcome) (id : String) (rcd : ConvRecord)
    (h : lookupConv s id = some rcd) :
    ∃ rcd',
      lookupConv
        (multiturnRequest s (("mode", JVal.str "continue") :: args) env newId
          outcome).store id = some rcd' ∧
      rcd'.provider = rcd.provider ∧ rcd'.model = rcd.model ∧
      rcd'.system_prompt = rcd.system_prompt ∧
      rcd'.hyperparameters = rcd.hyperparameters := by
  rw [multiturnRequest_continue_eq _ _ _ _ _ (pyGet_cons_self _ _ _)]
  split
  · exact ⟨rcd, h, rfl, rfl, rfl, rfl⟩
  · simp only [continueConversation]
    split
    · exact ⟨rcd, h, rfl, rfl, rfl, rfl⟩
    · split
      · split
        · exact ⟨rcd, h, rfl, rfl, rfl, rfl⟩
        · split
          · exact ⟨rcd, h, rfl, rfl, rfl, rfl⟩
          · cases outcome with
            | providerErr m => exact ⟨rcd, h, rfl, rfl, rfl, rfl⟩
            | otherErr m => exact ⟨rcd, h, rfl, rfl, rfl, rfl⟩
            | ok r =>
              simp only [commitConn, execWrite, lookupConv_updateUsage,
                lookupConv_insertHist, h, Option.map_some']
              refine ⟨_, rfl, ?_, ?_, ?_, ?_⟩ <;> split <;> rfl
      · exact ⟨rcd, h, rfl, rfl, rfl, rfl⟩

/-! ## Branch lemmas for start -/

/-- With the required fields present, an unsupported provider argument
fails before the credential check, before any adapter call and before
any write. -/
theorem startConversation_unsupported (conn : DBConn) (args : JDict)
    (env : String → Option String) (newId : String) (outcome : AdapterOutcome)
    (hnn : ¬ (pyGet args "provider" = JVal.null ∨ pyGet args "model" = JVal.null ∨
              pyGet args "system_prompt" = JVal.null))
    (hsup : providerSupported (pyGet args "provider") = false) :
    startConversation conn args env newId outcome =
      ⟨conn, .err ("Provider " ++ squote ++ jvalText (pyGet args "provider")
                    ++ squote ++ " not supported."), none⟩ := by
  simp only [startConversation, if_neg hnn]
  cases hp : pyGet args "provider" <;>
    simp_all [providerSupported, jvalText]

/-- With the provider recognized, a missing or empty credential fails
before any adapter call and before any write. -/
theorem startConversation_nokey (conn : DBConn) (args : JDict)
    (env : String → Option String) (newId : String) (outcome : AdapterOutcome)
    (hnn : ¬ (pyGet args "provider" = JVal.null ∨ pyGet args "model" = JVal.null ∨
              pyGet args "system_prompt" = JVal.null))
    (hsup : providerSupported (pyGet args "provider") = true)
    (hkey : apiKeyOkJ env (pyGet args "provider") = false) :
    (startConversation conn args env newId outcome).conn = conn ∧
    (startConversation conn args env newId outcome).call = none ∧
    (startConversation conn args env newId outcome).resp.isErr = true := by
  simp only [startConversation, if_neg hnn]
  cases hp : pyGet args "provider" <;>
    simp_all [providerSupported, apiKeyOkJ, ConvResp.isErr]

/-- With all validation stages passed, a failing adapter call leaves the
committed store untouched, though the adapter was invoked. -/
theorem startConversation_fail (conn : DBConn) (args : JDict)
    (env : String → Option String) (newId : String) (m : String)
    (outcome : AdapterOutcome)
    (hnn : ¬ (pyGet args "provider" = JVal.null ∨ pyGet args "model" = JVal.null ∨
              pyGet args "system_prompt" = JVal.null))
    (hsup : providerSupported (pyGet args "provider") = true)
    (hkey : apiKeyOkJ env (pyGet args "provider") = true)
    (hfail : outcome = .providerErr m ∨ outcome = .otherErr m) :
    (startConversation conn args env newId outcome).conn.committed = conn.committed ∧
    (startConversation conn args env newId outcome).call.isSome = true ∧
    (startConversation conn args env newId outcome).resp.isErr = true := by
  simp only [startConversation, if_neg hnn]
  cases hp : pyGet args "provider" <;>
    rcases hfail with h | h <;> subst h <;>
      simp_all [providerSupported, apiKeyOkJ, apiKeyOk, ConvResp.isErr,
        rollbackConn]

/-- Full equation of a successful start: validations passed, the adapter
invoked, then the conversation row and both history rows inserted and
committed. -/
theorem startConversation_ok_eq (conn : DBConn) (args : JDict)
    (env : String → Option String) (newId : String) (r : GenResult)
    (pname : String)
    (hnn : ¬ (pyGet args "provider" = JVal.null ∨ pyGet args "model" = JVal.null ∨
              pyGet args "system_prompt" = JVal.null))
    (hp : pyGet args "provider" = JVal.str pname)
    (hsup : PROVIDERS.contains pname = true)
    (hkey : apiKeyOk env pname = true)
    (hfresh : lookupConv conn.current newId = none)
    (hup : pyGetD args "user_prompt" (JVal.str "") ≠ JVal.null) :
    startConversation conn args env newId (.ok r) =
      ⟨commitConn (execWrite (execWrite (execWrite conn
          (fun s => insertConv s newId
            { provider := JVal.str pname, model := pyGet args "model",
              system_prompt := pyGet args "system_prompt",
              hyperparameters := startHypers args,
              usage := r.usage, costs := r.costs,
              response_time := r.response_time }))
          (fun s => insertHist s newId "user" (pyGetD args "user_prompt" (JVal.str ""))))
          (fun s => insertHist s newId "assistant" (JVal.str r.text))),
       .turnOk newId r.text r.model r.usage r.costs r.response_time,
       some { model := pyGet args "model",
              system_prompt := pyGet args "system_prompt",
              user_prompt := pyGetD args "user_prompt" (JVal.str ""),
              temperature := pyGet args "temperature",
              max_tokens := pyGet args "max_tokens",
              top_p := pyGet args "top_p",
              kwargs := startKwargs args }⟩ := by
  rw [hp] at hnn
  simp only [startConversation, hp, if_neg hnn, hsup, hkey, if_true,
    hfresh, Option.isSome_none, Bool.false_eq_true, if_false, if_neg hup]

/-! ## Concrete fixtures used by witnesses -/

/-- An environment holding only an OpenAI key. -/
def envW : String → Option String :=
  fun k => if k = "OPENAI_API_KEY" then some "sk-test" else none

def rcdW : ConvRecord :=
  { provider := .str "openai", model := .str "gpt-4o-mini",
    system_prompt := .str "Be terse.",
    hyperparameters := [("temperature", .num 1), ("max_tokens", .null),
                        ("top_p", .null), ("seed", .num 42)],
    usage := [("prompt_tokens", .num 10)], costs := [], response_time := 1/2 }

/-- A store holding one healthy conversation with one exchange. -/
def storeW : Store :=
  ⟨[("id-1", rcdW)],
   [{ conversation_id := "id-1", role := "user", content := .str "Hi" },
    { conversation_id := "id-1", role := "assistant", content := .str "Hello!" }]⟩

def genW : GenResult :=
  { text := "again", model := "gpt-4o-mini",
    usage := [("completion_tokens", .num 7)],
    costs := [("total_cost", .num 3)], response_time := 2, extra := [] }

def genW2 : GenResult :=
  { text := "more", model := "gpt-4o-mini",
    usage := [("completion_tokens", .num 70)],
    costs := [("total_cost", .num 30)], response_time := 4, extra := [] }

/-- Arguments of a well-formed start request. -/
def startArgsW : JDict :=
  [("mode", .str "start"), ("provider", .str "openai"),
   ("model", .str "gpt-4o-mini"), ("system_prompt", .str "Be terse."),
   ("user_prompt", .str "Hi"), ("temperature", .num 1), ("seed", .num 42)]

/-! ## Claim C1 -/

/-- **C1**: for every `continue` call whose adapter outcome is a raised
ProviderError or any other exception, the conversation's durable state
after the call equals its state before: every conversation's history
(length and contents) and every stored record (usage, costs,
response_time included) are unchanged — the speculatively appended user
message is rolled back. -/
theorem C1_continue_failure_rolls_back (store : Store) (args : JDict)
    (env : String → Option String) (newId : String) (m : String)
    (outcome : AdapterOutcome)
    (hmode : pyGet args "mode" = JVal.str "continue")
    (hfail : outcome = .providerErr m ∨ outcome = .otherErr m) :
    (multiturnRequest store args env newId outcome).store = store ∧
    (∀ id, convHistory (multiturnRequest store args env newId outcome).store id
        = convHistory store id) ∧
    (∀ id, lookupConv (multiturnRequest store args env newId outcome).store id
        = lookupConv store id) := by
  have hst : (multiturnRequest store args env newId outcome).store = store := by
    rw [multiturnRequest_continue_eq _ _ _ _ _ hmode]
    split
    · rfl
    · exact (continueConversation_fail ⟨store, store⟩ args outcome m hfail).1
  exact ⟨hst, fun id => by rw [hst], fun id => by rw [hst]⟩

/-- Witness for C1 at a concrete store, continue call and failing
adapter outcome. -/
theorem C1_continue_failure_rolls_back_witness :
    (multiturnRequest storeW (contArgs "id-1" "more") envW "fresh-id"
        (.providerErr "boom")).store = storeW :=
  (C1_continue_failure_rolls_back storeW (contArgs "id-1" "more") envW
    "fresh-id" "boom" (.providerErr "boom") rfl (Or.inl rfl)).1

/-! ## Claim C2 -/

/-- **C2**: every failing `start` request persists nothing — the store
afterwards equals the store before — and the stages are ordered:
a missing required field fails with no adapter call (hence before
registry, credential, adapter and write); an unknown provider with the
fields present fails with no adapter call; a missing credential with a
recognized provider fails with no adapter call; and when all checks pass
and the adapter itself fails, the adapter was invoked but nothing was
written. -/
theorem C2_start_failure_no_orphan (store : Store) (args : JDict)
    (env : String → Option String) (newId : String) (m : String)
    (outcome : AdapterOutcome)
    (hmode : pyGet args "mode" = JVal.str "start") :
    ((jTruthy (pyGet args "provider") = false ∨
      jTruthy (pyGet args "model") = false ∨
      jTruthy (pyGet args "system_prompt") = false) →
      (multiturnRequest store args env newId outcome).store = store ∧
      (multiturnRequest store args env newId outcome).genCall = none ∧
      (multiturnRequest store args env newId outcome).resp.isErr = true) ∧
    (jTruthy (pyGet args "provider") = true →
     jTruthy (pyGet args "model") = true →
     jTruthy (pyGet args "system_prompt") = true →
     providerSupported (pyGet args "provider") = false →
      (multiturnRequest store args env newId outcome).store = store ∧
      (multiturnRequest store args env newId outcome).genCall = none ∧
      (multiturnRequest store args env newId outcome).resp.isErr = true) ∧
    (jTruthy (pyGet args "provider") = true →
     jTruthy (pyGet args "model") = true →
     jTruthy (pyGet args "system_prompt") = true →
     providerSupported (pyGet args "provider") = true →
     apiKeyOkJ env (pyGet args "provider") = false →
      (multiturnRequest store args env newId outcome).store = store ∧
      (multiturnRequest store args env newId outcome).genCall = none ∧
      (multiturnRequest store args env newId outcome).resp.isErr = true) ∧
    (jTruthy (pyGet args "provider") = true →
     jTruthy (pyGet args "model") = true →
     jTruthy (pyGet args "system_prompt") = true →
     providerSupported (pyGet args "provider") = true →
     apiKeyOkJ env (pyGet args "provider") = true →
     (outcome = .providerErr m ∨ outcome = .otherErr m) →
      (multiturnRequest store args env newId outcome).store = store ∧
      (multiturnRequest store args env newId outcome).genCall.isSome = true ∧
      (multiturnRequest store args env newId outcome).resp.isErr = true) := by
  rw [multiturnRequest_start_eq _ _ _ _ _ hmode]
  refine ⟨?_, ?_, ?_, ?_⟩
  · rintro (h | h | h) <;>
      by_cases hp : jTruthy (pyGet args "provider") = true <;>
      by_cases hm2 : jTruthy (pyGet args "model") = true <;>
      by_cases hs : jTruthy (pyGet args "system_prompt") = true <;>
      simp_all [ConvResp.isErr]
  · intro hp hm2 hs hsup
    have hnn : ¬ (pyGet args "provider" = JVal.null ∨
        pyGet args "model" = JVal.null ∨
        pyGet args "system_prompt" = JVal.null) := by
      rintro (h | h | h)
      · exact jTruthy_ne_null _ hp h
      · exact jTruthy_ne_null _ hm2 h
      · exact jTruthy_ne_null _ hs h
    rw [startConversation_unsupported _ _ _ _ _ hnn hsup]
    simp [hp, hm2, hs, ConvResp.isErr]
  · intro hp hm2 hs hsup hkey
    have hnn : ¬ (pyGet args "provider" = JVal.null ∨
        pyGet args "model" = JVal.null ∨
        pyGet args "system_prompt" = JVal.null) := by
      rintro (h | h | h)
      · exact jTruthy_ne_null _ hp h
      · exact jTruthy_ne_null _ hm2 h
      · exact jTruthy_ne_null _ hs h
    have hk := startConversation_nokey ⟨store, store⟩ args env newId outcome
      hnn hsup hkey
    simp [hp, hm2, hs, hk.1, hk.2.1, hk.2.2]
  · intro hp hm2 hs hsup hkey hfail
    have hnn : ¬ (pyGet args "provider" = JVal.null ∨
        pyGet args "model" = JVal.null ∨
        pyGet args "system_prompt" = JVal.null) := by
      rintro (h | h | h)
      · exact jTruthy_ne_null _ hp h
      · exact jTruthy_ne_null _ hm2 h
      · exact jTruthy_ne_null _ hs h
    have hk := startConversation_fail ⟨store, store⟩ args env newId m outcome
      hnn hsup hkey hfail
    simp [hp, hm2, hs, hk.1, hk.2.1, hk.2.2]

/-- Witness for C2 at a concrete failing start call: all validations
pass but the adapter fails, and the store stays empty. -/
theorem C2_start_failure_no_orphan_witness :
    (multiturnRequest ⟨[], []⟩ startArgsW envW "fresh-id"
        (.otherErr "timeout")).store = (⟨[], []⟩ : Store) ∧
    (multiturnRequest ⟨[], []⟩ startArgsW envW "fresh-id"
        (.otherErr "timeout")).genCall.isSome = true ∧
    (multiturnRequest ⟨[], []⟩ startArgsW envW "fresh-id"
        (.otherErr "timeout")).resp.isErr = true :=
  (C2_start_failure_no_orphan ⟨[], []⟩ startArgsW envW "fresh-id" "timeout"
      (.otherErr "timeout") rfl).2.2.2
    (by decide) (by decide) (by decide) (by decide) (by decide) (Or.inr rfl)

/-! ## Claim C5 -/

/-- One successful continue request: the response carries the adapter's
values and the stored usage/costs/response_time are overwritten with
exactly those values. -/
theorem continueRequest_ok_usage (store : Store) (args : JDict)
    (env : String → Option String) (newId : String) (r : GenResult)
    (cid : String) (rcd : ConvRecord)
    (hmode : pyGet args "mode" = JVal.str "continue")
    (hcid : pyGet args "conversation_id" = JVal.str cid) (hne : cid ≠ "")
    (hrec : lookupConv store cid = some rcd)
    (hup : pyGetD args "user_prompt" (JVal.str "") ≠ JVal.null) :
    (multiturnRequest store args env newId (.ok r)).resp =
      .turnOk cid r.text r.model r.usage r.costs r.response_time ∧
    lookupConv (multiturnRequest store args env newId (.ok r)).store cid =
      some { rcd with usage := r.usage, costs := r.costs,
                      response_time := r.response_time } := by
  rw [multiturnRequest_continue_eq _ _ _ _ _ hmode]
  rw [if_neg (by simp [hcid, jTruthy, hne])]
  rw [continueConversation_ok_eq ⟨store, store⟩ args r cid rcd hcid hne hrec hup]
  refine ⟨rfl, ?_⟩
  simp only [commitConn, execWrite, lookupConv_updateUsage,
    lookupConv_insertHist, hrec, Option.map_some']
  simp

/-- **C5**: after every successful `continue`, the stored usage, costs
and response_time equal exactly that call's adapter values; after two
successful continues they equal only the second call's values — the
counters are overwritten, never accumulated. -/
theorem C5_usage_not_cumulative (store : Store) (args args2 : JDict)
    (env : String → Option String) (newId : String) (r r2 : GenResult)
    (cid : String) (rcd : ConvRecord)
    (hmode : pyGet args "mode" = JVal.str "continue")
    (hcid : pyGet args "conversation_id" = JVal.str cid) (hne : cid ≠ "")
    (hrec : lookupConv store cid = some rcd)
    (hup : pyGetD args "user_prompt" (JVal.str "") ≠ JVal.null)
    (hmode2 : pyGet args2 "mode" = JVal.str "continue")
    (hcid2 : pyGet args2 "conversation_id" = JVal.str cid)
    (hup2 : pyGetD args2 "user_prompt" (JVal.str "") ≠ JVal.null) :
    ((multiturnRequest store args env newId (.ok r)).resp =
      .turnOk cid r.text r.model r.usage r.costs r.response_time) ∧
    (∃ rcd1,
      lookupConv (multiturnRequest store args env newId (.ok r)).store cid =
        some rcd1 ∧
      rcd1.usage = r.usage ∧ rcd1.costs = r.costs ∧
      rcd1.response_time = r.response_time) ∧
    (∃ rcd2,
      lookupConv
        (multiturnRequest (multiturnRequest store args env newId (.ok r)).store
          args2 env newId (.ok r2)).store cid = some rcd2 ∧
      rcd2.usage = r2.usage ∧ rcd2.costs = r2.costs ∧
      rcd2.response_time = r2.response_time) := by
  have h1 := continueRequest_ok_usage store args env newId r cid rcd
    hmode hcid hne hrec hup
  have h2 := continueRequest_ok_usage
    (multiturnRequest store args env newId (.ok r)).store args2 env newId r2
    cid _ hmode2 hcid2 hne h1.2 hup2
  exact ⟨h1.1, ⟨_, h1.2, rfl, rfl, rfl⟩, ⟨_, h2.2, rfl, rfl, rfl⟩⟩

/-- Witness for C5: two successful continues on the fixture store leave
only the second adapter result's counters in the record. -/
theorem C5_usage_not_cumulative_witness :
    ∃ rcd2,
      lookupConv
        (multiturnRequest
          (multiturnRequest storeW (contArgs "id-1" "x") envW "n" (.ok genW)).store
          (contArgs "id-1" "y") envW "n" (.ok genW2)).store "id-1" = some rcd2 ∧
      rcd2.usage = genW2.usage ∧ rcd2.costs = genW2.costs ∧
      rcd2.response_time = genW2.response_time :=
  (C5_usage_not_cumulative storeW (contArgs "id-1" "x") (contArgs "id-1" "y")
    envW "n" genW genW2 "id-1" rcdW rfl rfl (by decide) rfl (by decide)
    rfl rfl (by decide)).2.2

/-! ## Claim C6 -/

theorem closeConversation_ok_eq (conn : DBConn) (args : JDict)
    (cid : String) (rcd : ConvRecord)
    (hcid : pyGet args "conversation_id" = JVal.str cid) (hne : cid ≠ "")
    (hrec : lookupConv conn.current cid = some rcd) :
    closeConversation conn args =
      (commitConn (execWrite conn (fun s => deleteConv s cid)),
       .closeOk ("Conversation " ++ squote ++ cid ++ squote ++ " closed.")) := by
  have ht : ¬ ((!(jTruthy (JVal.str cid))) = true) := by simp [jTruthy, hne]
  simp only [closeConversation, hcid, hrec, if_neg ht]

theorem closeConversation_notfound (conn : DBConn) (args : JDict)
    (ht : jTruthy (pyGet args "conversation_id") = true)
    (hnf : lookupConvJ conn.current (pyGet args "conversation_id") = none) :
    closeConversation conn args =
      (conn, .err (notFoundMsg (pyGet args "conversation_id"))) := by
  have ht' : (!(jTruthy (pyGet args "conversation_id"))) = false := by simp [ht]
  simp only [closeConversation, ht', Bool.false_eq_true, if_false]
  cases hv : pyGet args "conversation_id" <;> simp_all [lookupConvJ, jTruthy]

theorem getConversation_notfound (conn : DBConn) (args : JDict)
    (ht : jTruthy (pyGet args "conversation_id") = true)
    (hnf : lookupConvJ conn.current (pyGet args "conversation_id") = none) :
    getConversation conn args =
      .err (notFoundMsg (pyGet args "conversation_id")) := by
  have ht' : (!(jTruthy (pyGet args "conversation_id"))) = false := by simp [ht]
  simp only [getConversation, ht', Bool.false_eq_true, if_false]
  cases hv : pyGet args "conversation_id" <;> simp_all [lookupConvJ, jTruthy]

/-- Every not-found message contains the substring "not found". -/
theorem notFoundMsg_contains (v : JVal) :
    containsSub (notFoundMsg v) "not found" := by
  refine ⟨"Conversation with ID " ++ squote ++ jvalText v ++ squote ++ " ",
    ".", ?_⟩
  unfold notFoundMsg
  have h : (" not found." : String) = " " ++ "not found" ++ "." := by decide
  rw [h]
  simp [String.append_assoc]

/-- **C6**: `close` on an existing conversation deletes the record and
all of its messages in one request; `close`, `continue` and `get` on an
id with no record fail with a message containing "not found" and leave
the store untouched; hence a second `close` of the same id returns the
same kind of not-found error with no side effect. -/
theorem C6_close_atomic_and_idempotent_notfound (store : Store)
    (args : JDict) (env : String → Option String) (newId : String)
    (outcome : AdapterOutcome) (cid : String)
    (hcid : pyGet args "conversation_id" = JVal.str cid) (hne : cid ≠ "") :
    (∀ rcd, pyGet args "mode" = JVal.str "close" →
      lookupConv store cid = some rcd →
      (multiturnRequest store args env newId outcome).store =
        deleteConv store cid ∧
      lookupConv (multiturnRequest store args env newId outcome).store cid =
        none ∧
      convHistory (multiturnRequest store args env newId outcome).store cid =
        [] ∧
      (multiturnRequest store args env newId outcome).resp =
        .closeOk ("Conversation " ++ squote ++ cid ++ squote ++ " closed.")) ∧
    (lookupConv store cid = none →
      (pyGet args "mode" = JVal.str "close" ∨
       pyGet args "mode" = JVal.str "continue" ∨
       pyGet args "mode" = JVal.str "get") →
      (multiturnRequest store args env newId outcome).store = store ∧
      ∃ emsg, (multiturnRequest store args env newId outcome).resp =
          .err emsg ∧ containsSub emsg "not found") ∧
    (∀ rcd, pyGet args "mode" = JVal.str "close" →
      lookupConv store cid = some rcd →
      (multiturnRequest (multiturnRequest store args env newId outcome).store
          args env newId outcome).store =
        (multiturnRequest store args env newId outcome).store ∧
      ∃ emsg,
        (multiturnRequest (multiturnRequest store args env newId outcome).store
            args env newId outcome).resp = .err emsg ∧
        containsSub emsg "not found") := by
  have htr : jTruthy (pyGet args "conversation_id") = true := by
    rw [hcid]; simp [jTruthy, hne]
  have hclose : ∀ rcd, pyGet args "mode" = JVal.str "close" →
      lookupConv store cid = some rcd →
      (multiturnRequest store args env newId outcome).store =
        deleteConv store cid ∧
      (multiturnRequest store args env newId outcome).resp =
        .closeOk ("Conversation " ++ squote ++ cid ++ squote ++ " closed.") := by
    intro rcd hmode hrec
    rw [multiturnRequest_close_eq _ _ _ _ _ hmode, if_neg (by simp [htr])]
    rw [closeConversation_ok_eq ⟨store, store⟩ args cid rcd hcid hne hrec]
    exact ⟨rfl, rfl⟩
  have hnotfound : ∀ s : Store, lookupConv s cid = none →
      (pyGet args "mode" = JVal.str "close" ∨
       pyGet args "mode" = JVal.str "continue" ∨
       pyGet args "mode" = JVal.str "get") →
      (multiturnRequest s args env newId outcome).store = s ∧
      ∃ emsg, (multiturnRequest s args env newId outcome).resp =
          .err emsg ∧ containsSub emsg "not found" := by
    intro s hnf hmode
    have hnfJ : lookupConvJ s (pyGet args "conversation_id") = none := by
      rw [hcid]; exact hnf
    rcases hmode with hmode | hmode | hmode
    · rw [multiturnRequest_close_eq _ _ _ _ _ hmode, if_neg (by simp [htr])]
      rw [closeConversation_notfound ⟨s, s⟩ args htr hnfJ]
      exact ⟨rfl, _, rfl, notFoundMsg_contains _⟩
    · rw [multiturnRequest_continue_eq _ _ _ _ _ hmode, if_neg (by simp [htr])]
      rw [continueConversation_notfound ⟨s, s⟩ args outcome htr hnfJ]
      exact ⟨rfl, _, rfl, notFoundMsg_contains _⟩
    · rw [multiturnRequest_get_eq _ _ _ _ _ hmode, if_neg (by simp [htr])]
      rw [getConversation_notfound ⟨s, s⟩ args htr hnfJ]
      exact ⟨rfl, _, rfl, notFoundMsg_contains _⟩
  refine ⟨?_, hnotfound store, ?_⟩
  · intro rcd hmode hrec
    have h := hclose rcd hmode hrec
    refine ⟨h.1, ?_, ?_, h.2⟩
    · rw [h.1]; exact lookupConv_deleteConv_self store cid
    · rw [h.1]; exact convHistory_deleteConv_self store cid
  · intro rcd hmode hrec
    have h := hclose rcd hmode hrec
    have hgone : lookupConv (multiturnRequest store args env newId outcome).store
        cid = none := by
      rw [h.1]; exact lookupConv_deleteConv_self store cid
    exact hnotfound _ hgone (Or.inl hmode)

/-- Witness for C6: closing the fixture conversation deletes it, and the
second close reports a not-found error without touching the store. -/
theorem C6_close_atomic_and_idempotent_notfound_witness :
    (multiturnRequest
        (multiturnRequest storeW
          [("mode", JVal.str "close"), ("conversation_id", JVal.str "id-1")]
          envW "n" (.ok genW)).store
        [("mode", JVal.str "close"), ("conversation_id", JVal.str "id-1")]
        envW "n" (.ok genW)).store =
      (multiturnRequest storeW
        [("mode", JVal.str "close"), ("conversation_id", JVal.str "id-1")]
        envW "n" (.ok genW)).store ∧
    ∃ emsg,
      (multiturnRequest
          (multiturnRequest storeW
            [("mode", JVal.str "close"), ("conversation_id", JVal.str "id-1")]
            envW "n" (.ok genW)).store
          [("mode", JVal.str "close"), ("conversation_id", JVal.str "id-1")]
          envW "n" (.ok genW)).resp = .err emsg ∧
      containsSub emsg "not found" :=
  (C6_close_atomic_and_idempotent_notfound storeW
      [("mode", JVal.str "close"), ("conversation_id", JVal.str "id-1")]
      envW "n" (.ok genW) "id-1" rfl (by decide)).2.2 rcdW rfl rfl

/-! ## Claim C3 -/

theorem getConversation_ok_eq (conn : DBConn) (args : JDict)
    (cid : String) (rcd : ConvRecord)
    (hcid : pyGet args "conversation_id" = JVal.str cid) (hne : cid ≠ "")
    (hrec : lookupConv conn.current cid = some rcd) :
    getConversation conn args =
      .getOk cid
        ((convHistory conn.current cid).map
          (fun h => { role := h.role, content := h.content }))
        rcd.usage rcd.costs rcd.response_time
        rcd.provider rcd.model rcd.system_prompt rcd.hyperparameters := by
  have ht : ¬ ((!(jTruthy (JVal.str cid))) = true) := by simp [jTruthy, hne]
  simp only [getConversation, hcid, hrec, if_neg ht]

/-- The adapter-call record of a continue request that reaches the
adapter, for any outcome: built from the stored record, not from the
request arguments. -/
theorem continueConversation_call_eq (conn : DBConn) (args : JDict)
    (outcome : AdapterOutcome) (cid : String) (rcd : ConvRecord)
    (hcid : pyGet args "conversation_id" = JVal.str cid) (hne : cid ≠ "")
    (hrec : lookupConv conn.current cid = some rcd)
    (hup : pyGetD args "user_prompt" (JVal.str "") ≠ JVal.null) :
    (continueConversation conn args outcome).call =
      some { model := rcd.model, system_prompt := rcd.system_prompt,
             message_history := (convHistory conn.current cid).map
                 (fun h => { role := h.role, content := h.content }) ++
               [{ role := "user",
                  content := pyGetD args "user_prompt" (JVal.str "") }],
             kwargs := validHypers rcd.hyperparameters } := by
  have ht : ¬ ((!(jTruthy (JVal.str cid))) = true) := by simp [jTruthy, hne]
  cases outcome <;>
    simp only [continueConversation, hcid, hrec, if_neg hup, if_neg ht]

/-- Inversion: whenever a continue call reaches the adapter, the call
record was built from the stored conversation record — its system
prompt, model and kwargs all come from the store. -/
theorem continueConversation_call_inv (conn : DBConn) (args : JDict)
    (outcome : AdapterOutcome) (c : HistCall)
    (hc : (continueConversation conn args outcome).call = some c) :
    ∃ rcd0,
      lookupConvJ conn.current (pyGet args "conversation_id") = some rcd0 ∧
      c.system_prompt = rcd0.system_prompt ∧ c.model = rcd0.model ∧
      c.kwargs = validHypers rcd0.hyperparameters := by
  by_cases ht : jTruthy (pyGet args "conversation_id") = true
  · cases hv : pyGet args "conversation_id" with
    | null => rw [hv] at ht; simp [jTruthy] at ht
    | bool b =>
      rw [continueConversation_notfound conn args outcome ht
        (by rw [hv]; rfl)] at hc
      cases hc
    | num q =>
      rw [continueConversation_notfound conn args outcome ht
        (by rw [hv]; rfl)] at hc
      cases hc
    | str cid0 =>
      have hne0 : cid0 ≠ "" := by rw [hv] at ht; simpa [jTruthy] using ht
      cases hrec0 : lookupConv conn.current cid0 with
      | none =>
        rw [continueConversation_notfound conn args outcome ht
          (by rw [hv]; simpa [lookupConvJ] using hrec0)] at hc
        cases hc
      | some rcd0 =>
        by_cases hup : pyGetD args "user_prompt" (JVal.str "") = JVal.null
        · have hnone : (continueConversation conn args outcome).call = none := by
            have ht' : ¬ ((!(jTruthy (JVal.str cid0))) = true) := by
              simp [jTruthy, hne0]
            simp only [continueConversation, hv, hrec0, if_pos hup,
              if_neg ht']
          rw [hnone] at hc
          cases hc
        · rw [continueConversation_call_eq conn args outcome cid0 rcd0 hv
            hne0 hrec0 hup] at hc
          obtain rfl := Option.some.inj hc
          refine ⟨rcd0, ?_, rfl, rfl, rfl⟩
          simpa [lookupConvJ, hv] using hrec0
  · have hnone : (continueConversation conn args outcome).call = none := by
      simp only [continueConversation]
      rw [if_pos (by simpa using ht)]
    rw [hnone] at hc
    cases hc

/-- **C3**: across any sequence of continue requests, the stored
provider, model, system prompt and hyperparameters of a conversation
never change, and `get` still reports the original values; a
`system_prompt` argument supplied to continue is ignored entirely (the
call behaves as if it were absent), and the system prompt sent to the
adapter is the stored one. -/
theorem C3_identity_immutable_system_prompt_ignored (store : Store)
    (cid : String) (rcd : ConvRecord) (env : String → Option String)
    (newId : String)
    (hrec : lookupConv store cid = some rcd) (hne : cid ≠ "") :
    (∀ steps : List (JDict × AdapterOutcome),
      ∃ rcd',
        lookupConv (runContinues store env newId steps) cid = some rcd' ∧
        rcd'.provider = rcd.provider ∧ rcd'.model = rcd.model ∧
        rcd'.system_prompt = rcd.system_prompt ∧
        rcd'.hyperparameters = rcd.hyperparameters) ∧
    (∀ steps : List (JDict × AdapterOutcome),
      ∃ hist u c rt,
        getConversation
            ⟨runContinues store env newId steps, runContinues store env newId steps⟩
            [("conversation_id", JVal.str cid)] =
          .getOk cid hist u c rt rcd.provider rcd.model rcd.system_prompt
            rcd.hyperparameters) ∧
    (∀ (conn : DBConn) (args : JDict) (v : JVal) (outcome : AdapterOutcome),
      continueConversation conn (("system_prompt", v) :: args) outcome =
        continueConversation conn args outcome) ∧
    (∀ (conn : DBConn) (args : JDict) (outcome : AdapterOutcome) (c : HistCall),
      (continueConversation conn args outcome).call = some c →
      ∃ rcd0,
        lookupConvJ conn.current (pyGet args "conversation_id") = some rcd0 ∧
        c.system_prompt = rcd0.system_prompt ∧ c.model = rcd0.model) := by
  have main : ∀ (steps : List (JDict × AdapterOutcome)) (s : Store)
      (rc : ConvRecord), lookupConv s cid = some rc →
      ∃ rcd', lookupConv (runContinues s env newId steps) cid = some rcd' ∧
        rcd'.provider = rc.provider ∧ rcd'.model = rc.model ∧
        rcd'.system_prompt = rc.system_prompt ∧
        rcd'.hyperparameters = rc.hyperparameters := by
    intro steps
    induction steps with
    | nil => exact fun s rc h => ⟨rc, h, rfl, rfl, rfl, rfl⟩
    | cons hd tl ih =>
      intro s rc h
      obtain ⟨rc1, h1, hp1, hm1, hs1, hh1⟩ :=
        continueRequest_identity s hd.1 env newId hd.2 cid rc h
      obtain ⟨rcd', h', hp', hm', hs', hh'⟩ := ih _ rc1 h1
      exact ⟨rcd', by simpa [runContinues] using h', hp'.trans hp1,
        hm'.trans hm1, hs'.trans hs1, hh'.trans hh1⟩
  refine ⟨fun steps => main steps store rcd hrec, ?_, ?_, ?_⟩
  · intro steps
    obtain ⟨rcd', h', hp', hm', hs', hh'⟩ := main steps store rcd hrec
    refine ⟨(convHistory (runContinues store env newId steps) cid).map
        (fun h => { role := h.role, content := h.content }),
      rcd'.usage, rcd'.costs, rcd'.response_time, ?_⟩
    have hg := getConversation_ok_eq
      ⟨runContinues store env newId steps, runContinues store env newId steps⟩
      [("conversation_id", JVal.str cid)] cid rcd'
      (pyGet_cons_self _ _ _) hne h'
    rw [hg, hp', hm', hs', hh']
  · intro conn args v outcome
    have h1 : pyGet (("system_prompt", v) :: args) "conversation_id" =
        pyGet args "conversation_id" := pyGet_cons_ne _ _ _ _ (by decide)
    have h2 : pyGetD (("system_prompt", v) :: args) "user_prompt"
        (JVal.str "") = pyGetD args "user_prompt" (JVal.str "") :=
      pyGetD_cons_ne _ _ _ _ _ (by decide)
    simp only [continueConversation, h1, h2]
  · intro conn args outcome c hc
    obtain ⟨rcd0, h1, h2, h3, _⟩ :=
      continueConversation_call_inv conn args outcome c hc
    exact ⟨rcd0, h1, h2, h3⟩

/-- Witness for C3 at the fixture conversation: after one successful and
one failing continue, `get` still reports the original provider, model,
system prompt and hyperparameters. -/
theorem C3_identity_immutable_system_prompt_ignored_witness :
    ∃ hist u c rt,
      getConversation
          ⟨runContinues storeW envW "n"
            [(contArgs "id-1" "x", .ok genW),
             (contArgs "id-1" "y", .providerErr "boom")],
           runContinues storeW envW "n"
            [(contArgs "id-1" "x", .ok genW),
             (contArgs "id-1" "y", .providerErr "boom")]⟩
          [("conversation_id", JVal.str "id-1")] =
        .getOk "id-1" hist u c rt rcdW.provider rcdW.model rcdW.system_prompt
          rcdW.hyperparameters :=
  (C3_identity_immutable_system_prompt_ignored storeW "id-1" rcdW envW "n"
      rfl (by decide)).2.1
    [(contArgs "id-1" "x", .ok genW), (contArgs "id-1" "y", .providerErr "boom")]

/-! ## Claim C4 -/

theorem altPattern_append (n : ℕ) :
    altPattern n ++ ["user", "assistant"] = altPattern (n + 1) := by
  induction n with
  | zero => rfl
  | succ k ih => simp only [altPattern, List.cons_append, ih]

theorem altPattern_head (n : ℕ) :
    (altPattern (n + 1)).head? = some "user" := rfl

theorem altPattern_getLast (n : ℕ) :
    (altPattern (n + 1)).getLast? = some "assistant" := by
  induction n with
  | zero => rfl
  | succ k ih =>
    show ("user" :: "assistant" :: altPattern (k + 1)).getLast? = _
    rw [List.getLast?_cons_cons]
    cases hk : altPattern (k + 1) with
    | nil => simp [hk] at ih
    | cons a l => rw [← hk, ← ih]; cases hl : altPattern (k + 1) with
      | nil => rw [hl] at hk; cases hk
      | cons b l2 => rw [List.getLast?_cons_cons]

theorem altPattern_no_system (n : ℕ) : "system" ∉ altPattern n := by
  induction n with
  | zero => simp [altPattern]
  | succ k ih => simp [altPattern, ih]

theorem convHistory_insertConv (s : Store) (i : String) (r : ConvRecord)
    (id : String) : convHistory (insertConv s i r) id = convHistory s id := rfl

theorem lookupConv_insertConv_of_none (s : Store) (i id : String)
    (r : ConvRecord) (h : lookupConv s id = none) :
    lookupConv (insertConv s i r) id =
      if (i == id) = true then some r else none := by
  unfold lookupConv insertConv at *
  rw [List.find?_append]
  simp only [Option.map_eq_none'] at h
  rw [h]
  by_cases hi : (i == id) = true <;> simp [List.find?, hi]

/-- One successful continuation appends exactly a user and an assistant
row to the conversation's history and keeps its record present. -/
theorem continueRequest_ok_roles (s : Store) (cid up : String)
    (r : GenResult) (env : String → Option String) (newId : String)
    (hne : cid ≠ "") (rcd : ConvRecord)
    (hrec : lookupConv s cid = some rcd) :
    rolesOf (multiturnRequest s (contArgs cid up) env newId (.ok r)).store cid
      = rolesOf s cid ++ ["user", "assistant"] ∧
    ∃ rcd', lookupConv
      (multiturnRequest s (contArgs cid up) env newId (.ok r)).store cid
        = some rcd' := by
  rw [multiturnRequest_continue_eq s (contArgs cid up) env newId (.ok r) rfl]
  rw [if_neg (by simp [contArgs, pyGet, jfind, List.find?, jTruthy, hne])]
  rw [continueConversation_ok_eq ⟨s, s⟩ (contArgs cid up) r cid rcd rfl hne
    hrec (by simp [contArgs, pyGetD, jfind, List.find?])]
  constructor
  · simp only [commitConn, execWrite, rolesOf, convHistory_updateUsage,
      convHistory_insertHist, beq_self_eq_true, if_true, List.map_append]
    simp
  · simp only [commitConn, execWrite, lookupConv_updateUsage,
      lookupConv_insertHist, hrec, Option.map_some']
    exact ⟨_, rfl⟩

/-- A successful start creates the record and exactly the initial
user/assistant exchange. -/
theorem startRequest_ok_roles (store : Store) (args : JDict)
    (env : String → Option String) (newId : String) (r : GenResult)
    (pname : String)
    (hmode : pyGet args "mode" = JVal.str "start")
    (hp : pyGet args "provider" = JVal.str pname)
    (hpt : jTruthy (pyGet args "provider") = true)
    (hmt : jTruthy (pyGet args "model") = true)
    (hst : jTruthy (pyGet args "system_prompt") = true)
    (hsup : PROVIDERS.contains pname = true)
    (hkey : apiKeyOk env pname = true)
    (hfresh : lookupConv store newId = none)
    (hnohist : convHistory store newId = [])
    (hup : pyGetD args "user_prompt" (JVal.str "") ≠ JVal.null) :
    rolesOf (multiturnRequest store args env newId (.ok r)).store newId =
      ["user", "assistant"] ∧
    ∃ rcd', lookupConv (multiturnRequest store args env newId (.ok r)).store
        newId = some rcd' := by
  rw [multiturnRequest_start_eq _ _ _ _ _ hmode,
    if_neg (by simp [hpt]), if_neg (by simp [hmt]), if_neg (by simp [hst])]
  rw [startConversation_ok_eq ⟨store, store⟩ args env newId r pname
    (by rintro (h | h | h)
        · exact jTruthy_ne_null _ hpt h
        · exact jTruthy_ne_null _ hmt h
        · exact jTruthy_ne_null _ hst h)
    hp hsup hkey hfresh hup]
  constructor
  · simp only [commitConn, execWrite, rolesOf, convHistory_insertHist,
      convHistory_insertConv, hnohist, beq_self_eq_true, if_true,
      List.map_append]
    rfl
  · simp only [commitConn, execWrite, lookupConv_insertHist,
      lookupConv_insertConv_of_none _ _ _ _ hfresh, beq_self_eq_true, if_true]
    exact ⟨_, rfl⟩

/-- **C4**: a conversation created by one successful start and advanced
by any number of successful continues has a history whose roles are
exactly [user, assistant, user, assistant, ...]: it begins with a user
message, ends with an assistant message, and contains no system-role
message; `get` returns that history. -/
theorem C4_history_alternates (store : Store) (args : JDict)
    (env : String → Option String) (newId : String) (r : GenResult)
    (pname : String) (steps : List (String × GenResult))
    (hmode : pyGet args "mode" = JVal.str "start")
    (hp : pyGet args "provider" = JVal.str pname)
    (hpt : jTruthy (pyGet args "provider") = true)
    (hmt : jTruthy (pyGet args "model") = true)
    (hst : jTruthy (pyGet args "system_prompt") = true)
    (hsup : PROVIDERS.contains pname = true)
    (hkey : apiKeyOk env pname = true)
    (hfresh : lookupConv store newId = none)
    (hnohist : convHistory store newId = [])
    (hup : pyGetD args "user_prompt" (JVal.str "") ≠ JVal.null)
    (hnid : newId ≠ "") :
    rolesOf (runContinueSeq (multiturnRequest store args env newId (.ok r)).store
        newId env newId steps) newId = altPattern (steps.length + 1) ∧
    (rolesOf (runContinueSeq (multiturnRequest store args env newId (.ok r)).store
        newId env newId steps) newId).head? = some "user" ∧
    (rolesOf (runContinueSeq (multiturnRequest store args env newId (.ok r)).store
        newId env newId steps) newId).getLast? = some "assistant" ∧
    "system" ∉ rolesOf (runContinueSeq (multiturnRequest store args env newId
        (.ok r)).store newId env newId steps) newId ∧
    ∃ hist u c rt p m sp hy,
      getConversation
          ⟨runContinueSeq (multiturnRequest store args env newId (.ok r)).store
            newId env newId steps,
           runContinueSeq (multiturnRequest store args env newId (.ok r)).store
            newId env newId steps⟩
          [("conversation_id", JVal.str newId)] =
        .getOk newId hist u c rt p m sp hy ∧
      hist.map Msg.role = altPattern (steps.length + 1) := by
  have h0 := startRequest_ok_roles store args env newId r pname hmode hp hpt
    hmt hst hsup hkey hfresh hnohist hup
  have main : ∀ (stps : List (String × GenResult)) (s : Store) (n : ℕ),
      rolesOf s newId = altPattern (n + 1) →
      (∃ rcd0, lookupConv s newId = some rcd0) →
      rolesOf (runContinueSeq s newId env newId stps) newId =
        altPattern (n + 1 + stps.length) ∧
      ∃ rcd', lookupConv (runContinueSeq s newId env newId stps) newId =
        some rcd' := by
    intro stps
    induction stps with
    | nil => exact fun s n hr hx => ⟨by simpa using hr, hx⟩
    | cons hd tl ih =>
      intro s n hr hx
      obtain ⟨rcd0, h⟩ := hx
      have step := continueRequest_ok_roles s newId hd.1 hd.2 env newId hnid
        rcd0 h
      have hr1 : rolesOf (multiturnRequest s (contArgs newId hd.1) env newId
          (.ok hd.2)).store newId = altPattern (n + 2) := by
        rw [step.1, hr, altPattern_append]
      have hrec1 := step.2
      have := ih (multiturnRequest s (contArgs newId hd.1) env newId
        (.ok hd.2)).store (n + 1) hr1 hrec1
      refine ⟨?_, ?_⟩
      · rw [show runContinueSeq s newId env newId (hd :: tl) =
            runContinueSeq (multiturnRequest s (contArgs newId hd.1) env newId
              (.ok hd.2)).store newId env newId tl from rfl]
        rw [this.1]
        congr 1
        simp only [List.length_cons]
        omega
      · rw [show runContinueSeq s newId env newId (hd :: tl) =
            runContinueSeq (multiturnRequest s (contArgs newId hd.1) env newId
              (.ok hd.2)).store newId env newId tl from rfl]
        exact this.2
  have hall := main steps (multiturnRequest store args env newId (.ok r)).store
    0 (by simpa using h0.1) h0.2
  have hroles : rolesOf (runContinueSeq (multiturnRequest store args env newId
      (.ok r)).store newId env newId steps) newId =
      altPattern (steps.length + 1) := by
    rw [hall.1]; congr 1; omega
  obtain ⟨rcdF, hrecF⟩ := hall.2
  refine ⟨hroles, ?_, ?_, ?_, ?_⟩
  · rw [hroles]; exact altPattern_head _
  · rw [hroles]; exact altPattern_getLast _
  · rw [hroles]; exact altPattern_no_system _
  · have hg := getConversation_ok_eq
      ⟨runContinueSeq (multiturnRequest store args env newId (.ok r)).store
        newId env newId steps,
       runContinueSeq (multiturnRequest store args env newId (.ok r)).store
        newId env newId steps⟩
      [("conversation_id", JVal.str newId)] newId rcdF
      (pyGet_cons_self _ _ _) hnid hrecF
    refine ⟨_, _, _, _, _, _, _, _, hg, ?_⟩
    rw [List.map_map]
    exact hroles

/-- Witness for C4: started conversation plus one successful continue
gives roles [user, assistant, user, assistant]. -/
theorem C4_history_alternates_witness :
    rolesOf (runContinueSeq
        (multiturnRequest ⟨[], []⟩ startArgsW envW "id-9" (.ok genW)).store
        "id-9" envW "id-9" [("x", genW2)]) "id-9" = altPattern 2 :=
  (C4_history_alternates ⟨[], []⟩ startArgsW envW "id-9" genW "openai"
    [("x", genW2)] rfl rfl (by decide) (by decide) (by decide) (by decide)
    (by decide) rfl rfl (by decide) (by decide)).1

/-! ## Claim C9 -/

/-- `validHypers` keeps only recognized sampling keys whose stored value
is not None, each taken verbatim from the stored dict. -/
theorem validHypers_mem (h : JDict) (kv : String × JVal)
    (hm : kv ∈ validHypers h) :
    kv.1 ∈ VALID_PARAMS ∧ kv.2 ≠ JVal.null ∧ jfind h kv.1 = some kv.2 := by
  unfold validHypers at hm
  rw [List.mem_filterMap] at hm
  obtain ⟨k, hk, hf⟩ := hm
  cases hj : jfind h k with
  | none => simp only [hj] at hf; cases hf
  | some v =>
    simp only [hj] at hf
    by_cases hv : v = JVal.null
    · rw [if_pos hv] at hf; cases hf
    · rw [if_neg hv] at hf
      obtain rfl := Option.some.inj hf
      exact ⟨hk, hv, hj⟩

/-- **C9**: on every continue request that reaches the adapter,
`generate_with_history` receives as kwargs exactly
`validHypers` of the conversation's stored hyperparameters — only the
keys temperature/max_tokens/top_p, only those stored non-null, each
taken verbatim from the stored dict; and a start-created record stores
the full hyperparameter dict (the three sampling keys followed by every
extra), so extras are stored but never replayed on continuation. -/
theorem C9_continue_replays_only_sampling (store : Store) (args : JDict)
    (env : String → Option String) (newId : String)
    (outcome : AdapterOutcome) :
    (∀ c, pyGet args "mode" = JVal.str "continue" →
      (multiturnRequest store args env newId outcome).histCall = some c →
      ∃ rcd,
        lookupConvJ store (pyGet args "conversation_id") = some rcd ∧
        c.kwargs = validHypers rcd.hyperparameters ∧
        ∀ kv ∈ c.kwargs, kv.1 ∈ VALID_PARAMS ∧ kv.2 ≠ JVal.null ∧
          jfind rcd.hyperparameters kv.1 = some kv.2) ∧
    (∀ cid rcd, pyGet args "mode" = JVal.str "start" →
      lookupConv (multiturnRequest store args env newId outcome).store cid =
        some rcd →
      lookupConv store cid = none →
      cid = newId ∧ rcd.hyperparameters = startHypers args ∧
      startHypers args =
        [("temperature", pyGet args "temperature"),
         ("max_tokens", pyGet args "max_tokens"),
         ("top_p", pyGet args "top_p")] ++ startKwargs args) := by
  constructor
  · intro c hmode hc
    rw [multiturnRequest_continue_eq _ _ _ _ _ hmode] at hc
    by_cases ht : jTruthy (pyGet args "conversation_id") = true
    · rw [if_neg (by simp [ht])] at hc
      obtain ⟨rcd0, h1, _, _, h4⟩ :=
        continueConversation_call_inv ⟨store, store⟩ args outcome c hc
      refine ⟨rcd0, h1, h4, ?_⟩
      intro kv hkv
      rw [h4] at hkv
      exact validHypers_mem _ _ hkv
    · rw [if_pos (by simpa using ht)] at hc
      simp at hc
  · intro cid rcd hmode hnew hold
    rw [multiturnRequest_start_eq _ _ _ _ _ hmode] at hnew
    split at hnew
    · exact absurd hnew (by simp [hold])
    · split at hnew
      · exact absurd hnew (by simp [hold])
      · split at hnew
        · exact absurd hnew (by simp [hold])
        · simp only [startConversation] at hnew
          split at hnew
          · exact absurd hnew (by simp [hold])
          · split at hnew
            · split at hnew
              · split at hnew
                · split at hnew
                  · exact absurd hnew (by simp [rollbackConn, hold])
                  · exact absurd hnew (by simp [rollbackConn, hold])
                  · split at hnew
                    · exact absurd hnew (by simp [rollbackConn, hold])
                    · split at hnew
                      · exact absurd hnew (by simp [rollbackConn, hold])
                      · simp only [commitConn, execWrite,
                          lookupConv_insertHist] at hnew
                        rw [lookupConv_insertConv_of_none _ _ _ _ hold] at hnew
                        by_cases hid : (newId == cid) = true
                        · rw [if_pos hid] at hnew
                          obtain rfl := Option.some.inj hnew
                          exact ⟨(beq_iff_eq.mp hid).symm, rfl, rfl⟩
                        · rw [if_neg hid] at hnew; cases hnew
                · exact absurd hnew (by simp [hold])
              · exact absurd hnew (by simp [hold])
            · exact absurd hnew (by simp [hold])

/-- The adapter-call record of the witness continue request. -/
def histCallW : HistCall :=
  { model := .str "gpt-4o-mini", system_prompt := .str "Be terse.",
    message_history :=
      [{ role := "user", content := .str "Hi" },
       { role := "assistant", content := .str "Hello!" },
       { role := "user", content := .str "x" }],
    kwargs := [("temperature", .num 1)] }

/-- Witness for C9: the fixture conversation stores four hyperparameter
entries (including the extra "seed"), yet the adapter receives only the
non-null sampling key temperature. -/
theorem C9_continue_replays_only_sampling_witness :
    ∃ rcd,
      lookupConvJ storeW (pyGet (contArgs "id-1" "x") "conversation_id") =
        some rcd ∧
      histCallW.kwargs = validHypers rcd.hyperparameters := by
  obtain ⟨rcd, h1, h2, _⟩ :=
    (C9_continue_replays_only_sampling storeW (contArgs "id-1" "x") envW "n"
      (.ok genW)).1 histCallW rfl (by decide)
  exact ⟨rcd, h1, h2⟩

/-! ## Claims C7 and C10 -/

/-- The aggregation equation of a size-validated comparison request. -/
theorem testComparison_ok_eq (env : String → Option String)
    (comparisons : List JDict) (outcomes : List AdapterOutcome)
    (hlen : 1 ≤ comparisons.length ∧ comparisons.length ≤ 4) :
    testComparison env comparisons outcomes =
      .ok (List.zipWith (fun c o => (runComparison env c o).1)
        comparisons outcomes) := by
  have hne : comparisons.isEmpty = false := by
    cases comparisons with
    | nil => simp at hlen
    | cons a l => rfl
  unfold testComparison
  rw [if_neg (by simp [hne]), if_neg (by simp [hlen.1, hlen.2])]

/-- **C7**: a comparison request over N (1..4) configurations returns
one result per configuration in input order; slot i's result depends
only on configuration i and its own adapter outcome (full isolation);
every slot is either a success payload or an error payload; and whenever
a slot's own validation passes, the adapter is invoked — the catalog
membership of the model name plays no role. -/
theorem C7_comparison_runner_isolated (env : String → Option String)
    (comparisons : List JDict) (outcomes : List AdapterOutcome)
    (hlen : 1 ≤ comparisons.length ∧ comparisons.length ≤ 4)
    (hout : outcomes.length = comparisons.length) :
    ∃ results,
      testComparison env comparisons outcomes = .ok results ∧
      results.length = comparisons.length ∧
      (∀ (i : ℕ) (hi : i < comparisons.length) (ho : i < outcomes.length)
          (hr : i < results.length),
        results.get ⟨i, hr⟩ =
          (runComparison env (comparisons.get ⟨i, hi⟩)
            (outcomes.get ⟨i, ho⟩)).1) ∧
      (∀ sl ∈ results, (∃ m, sl = SlotResp.err m) ∨
        ∃ t mo pr u co rt md, sl = SlotResp.ok t mo pr u co rt md) ∧
      (∀ (config : JDict) (outcome : AdapterOutcome) (pname : String),
        pyGet config "provider" = JVal.str pname →
        PROVIDERS.contains pname = true →
        apiKeyOk env pname = true →
        pyGet config "model" ≠ JVal.null →
        pyGet config "system_prompt" ≠ JVal.null →
        pyGetD config "user_prompt" (JVal.str "") ≠ JVal.null →
        (runComparison env config outcome).2.isSome = true) := by
  refine ⟨_, testComparison_ok_eq env comparisons outcomes hlen, ?_, ?_, ?_, ?_⟩
  · simp [hout]
  · intro i hi ho hr
    simp [List.get_eq_getElem, List.getElem_zipWith]
  · intro sl _
    cases sl with
    | err m => exact Or.inl ⟨m, rfl⟩
    | ok t mo pr u co rt md => exact Or.inr ⟨t, mo, pr, u, co, rt, md, rfl⟩
  · intro config outcome pname hp hsup hkey hm2 hs hu
    have hnn : ¬ (pyGet config "provider" = JVal.null ∨
        pyGet config "model" = JVal.null ∨
        pyGet config "system_prompt" = JVal.null ∨
        pyGetD config "user_prompt" (JVal.str "") = JVal.null) := by
      rintro (h | h | h | h)
      · rw [hp] at h; cases h
      · exact hm2 h
      · exact hs h
      · exact hu h
    rw [hp] at hnn
    cases outcome <;>
      simp only [runComparison, hp, if_neg hnn, hsup, if_true, hkey,
        Option.isSome_some]

/-- Witness for C7: three slots, the middle naming an unsupported
provider, produce three results in order with an error only in slot 2. -/
theorem C7_comparison_runner_isolated_witness :
    ∃ results,
      testComparison envW
        [[("provider", JVal.str "openai"), ("model", JVal.str "gpt-4o-mini"),
          ("system_prompt", JVal.str "s")],
         [("provider", JVal.str "bogus"), ("model", JVal.str "m"),
          ("system_prompt", JVal.str "s")],
         [("provider", JVal.str "openai"), ("model", JVal.str "brand-new-model"),
          ("system_prompt", JVal.str "s")]]
        [.ok genW, .ok genW, .ok genW2] = .ok results ∧
      results.length = 3 :=
  match C7_comparison_runner_isolated envW
    [[("provider", JVal.str "openai"), ("model", JVal.str "gpt-4o-mini"),
      ("system_prompt", JVal.str "s")],
     [("provider", JVal.str "bogus"), ("model", JVal.str "m"),
      ("system_prompt", JVal.str "s")],
     [("provider", JVal.str "openai"), ("model", JVal.str "brand-new-model"),
      ("system_prompt", JVal.str "s")]]
    [.ok genW, .ok genW, .ok genW2] (by decide) (by decide) with
  | ⟨results, h1, h2, _, _, _⟩ => ⟨results, h1, h2⟩

/-- **C10**: whenever the `comparisons` argument is a list of 1 to 4
configurations, the aggregate response is the isError-false shape
carrying the per-slot outcomes — whatever those outcomes are, errors
included; per-slot failures surface only inside `results`. -/
theorem C10_top_level_isError_false (env : String → Option String)
    (comparisons : List JDict) (outcomes : List AdapterOutcome)
    (hlen : 1 ≤ comparisons.length ∧ comparisons.length ≤ 4) :
    testComparison env comparisons outcomes =
      .ok (List.zipWith (fun c o => (runComparison env c o).1)
        comparisons outcomes) :=
  testComparison_ok_eq env comparisons outcomes hlen

/-- Witness for C10: a single slot whose provider is unsupported and a
slot whose adapter raised still yield a top-level isError-false
response, the failures confined to the results list. -/
theorem C10_top_level_isError_false_witness :
    testComparison envW
        [[("provider", JVal.str "bogus"), ("model", JVal.str "m"),
          ("system_prompt", JVal.str "s")],
         [("provider", JVal.str "openai"), ("model", JVal.str "gpt-4o-mini"),
          ("system_prompt", JVal.str "s")]]
        [.providerErr "nope", .otherErr "boom"] =
      .ok (List.zipWith (fun c o => (runComparison envW c o).1)
        [[("provider", JVal.str "bogus"), ("model", JVal.str "m"),
          ("system_prompt", JVal.str "s")],
         [("provider", JVal.str "openai"), ("model", JVal.str "gpt-4o-mini"),
          ("system_prompt", JVal.str "s")]]
        [.providerErr "nope", .otherErr "boom"]) :=
  C10_top_level_isError_false envW _ _ (by decide)

/-! ## Claim C8 -/

/-- **C8**: the cost computation is a pure function of the token counts
and the pricing record: no breakdown when the model has no exact-name
catalog match; otherwise input and output costs are (count / 1,000,000)
× rate, reported separately with their sum; and at 1,000,000 input and
1,000,000 output tokens under rates 0.15 and 0.60 the total is exactly
0.75. -/
theorem C8_cost_pure_function (model : String) (pt ct : ℕ) :
    (findModelInfo model = none → openaiCosts model pt ct = none) ∧
    (∀ info, findModelInfo model = some info →
      openaiCosts model pt ct = some {
        input_cost := ((pt : ℚ) / 1000000) * info.input_cost,
        output_cost := ((ct : ℚ) / 1000000) * info.output_cost,
        total_cost := ((pt : ℚ) / 1000000) * info.input_cost +
          ((ct : ℚ) / 1000000) * info.output_cost,
        currency := "USD", input_rate := info.input_cost,
        output_rate := info.output_cost }) ∧
    (∀ info : ModelInfo, info.input_cost = 15/100 →
      info.output_cost = 60/100 →
      (computeCosts info 1000000 1000000).total_cost = 3/4) := by
  refine ⟨?_, ?_, ?_⟩
  · intro h; simp [openaiCosts, h]
  · intro info h; simp [openaiCosts, h, computeCosts]
  · intro info h1 h2
    simp only [computeCosts, h1, h2]
    norm_num

/-- Witness for C8: the gpt-4o-mini pricing record gives exactly 0.75,
and an uncataloged model name yields no breakdown. -/
theorem C8_cost_pure_function_witness :
    (computeCosts { name := "gpt-4o-mini", input_cost := 15/100,
                    output_cost := 60/100,
                    description := "Fast and cost-effective model for most use cases" }
      1000000 1000000).total_cost = 3/4 ∧
    openaiCosts "model-not-in-catalog" 5 7 = none :=
  ⟨(C8_cost_pure_function "gpt-4o-mini" 1000000 1000000).2.2 _ rfl rfl,
   (C8_cost_pure_function "model-not-in-catalog" 5 7).1 (by decide)⟩

end PromptTester
